import Mathlib

/-!
Verification development for the meeting-point optimizer in `brain/optimized.py`.

The Python program is embedded shallowly:

* the polars tables become Lean lists of records (`FlightLeg`, `EmissionRec`);
* UTC instants become integer minutes since an arbitrary epoch (the program
  compares and subtracts datetimes, never inspects calendar fields inside the
  core, so any linearly ordered clock works; polars durations then have
  `dt.total_hours()` equal to truncating division of the minute count by 60);
* float arithmetic on CO2 tonnes and travel hours becomes exact rational
  arithmetic; the one genuinely irrational operation, `statistics.stdev`
  (a square root), is modelled in `ℝ`;
* nullable CSV fields that the program explicitly guards with `is_not_null`
  filters (`ELPTIM` → `TRAVEL_HOURS`, `ESTIMATED_CO2_TOTAL_TONNES` →
  `CO2_PER_PERSON_TONNES`, `SEATS`) are modelled with `Option`; timestamp
  columns are modelled as always parsed, because every row with an unparsed
  timestamp is discarded by the window / layover filters before use;
* the schedule CSV discovery (`get_schedule_files_for_window`, Phase 0) is
  file-system work outside the core: functions here receive the already
  loaded schedule rows and the already deduplicated emissions table.
  `emissions.unique(subset=key)` uses polars' default `keep="any"`, which
  promises only *some* representative per key, so the emissions loader is
  modelled as a relation (`isEmissionsLoad`) between raw rows and tables.
-/

set_option allowUnsafeReducibility true in
attribute [semireducible] Rat.add Rat.mul Rat.inv Rat.sub Rat.ofScientific

namespace MeetingOpt

/-- The fixed `CITY_TO_CODE_MAP` dictionary from `optimized.py`. -/
def CITY_TO_CODE_MAP : String → Option String := fun name =>
  match name with
  | "Mumbai" => some "BOM"
  | "Shanghai" => some "SHA"
  | "Hong Kong" => some "HKG"
  | "Singapore" => some "SIN"
  | "Sydney" => some "SYD"
  | "London" => some "LON"
  | "Paris" => some "PAR"
  | "Zurich" => some "ZRH"
  | "Geneva" => some "GVA"
  | "Dubai" => some "DXB"
  | "Aarhus" => some "AAR"
  | "Wroclaw" => some "WRO"
  | "Budapest" => some "BUD"
  | _ => none

/-- One schedule row after `scan_csv` and column selection in
`get_lazy_schedules`.  Times are UTC instants in minutes. -/
structure FlightLeg where
  carrier : String
  fltno : Int
  depapt : String
  arrapt : String
  elptim : Option Int
  depTime : Int
  arrTime : Int
  stops : Int
  equipment : String
  depcity : String
  arrcity : String
  service : String
  operating : String
deriving DecidableEq

/-- Derived column `TRAVEL_HOURS = floor(ELPTIM / 100) + (ELPTIM % 100) / 60`
(null when `ELPTIM` is null). -/
def travelHours (l : FlightLeg) : Option ℚ :=
  l.elptim.map (fun e => ((Int.fdiv e 100 : ℤ) : ℚ) + ((e % 100 : ℤ) : ℚ) / 60)

/-- Derived column `AIRCRAFT_TYPE_CLEAN = EQUIPMENT_CD_ICAO.str.slice(-3)`. -/
def aircraftClean (l : FlightLeg) : String := l.equipment.takeRight 3

/-- The row filter of `get_lazy_schedules`: passenger (`SERVICE == "J"`)
and operating (`OPERATING != "N"`) flights only. -/
def loadSchedules (raw : List FlightLeg) : List FlightLeg :=
  raw.filter (fun l => l.service == "J" && l.operating != "N")

/-- One raw `emissions.csv` row after column selection in `get_lazy_emissions`. -/
structure RawEmission where
  depapt : String
  arrapt : String
  aircraft : String
  seats : Option Int
  co2total : Option ℚ
deriving DecidableEq

/-- One emissions record as consumed by `find_flights`: the derived
`CO2_PER_PERSON_TONNES = ESTIMATED_CO2_TOTAL_TONNES / SEATS` column attached,
rows with `SEATS ≤ 0` (or null seats) removed. -/
structure EmissionRec where
  depapt : String
  arrapt : String
  aircraft : String
  seats : Int
  co2pp : Option ℚ
deriving DecidableEq

/-- The per-row part of `get_lazy_emissions`: derive `CO2_PER_PERSON_TONNES`
and apply the `SEATS > 0` filter (a null-seat row is also dropped, because
`null > 0` is null in polars). -/
def emissionRecOfRaw (r : RawEmission) : Option EmissionRec :=
  match r.seats with
  | some s =>
    if 0 < s then
      some ⟨r.depapt, r.arrapt, r.aircraft, s, r.co2total.map (fun c => c / (s : ℚ))⟩
    else none
  | none => none

/-- Key of the `unique(subset=["DEPARTURE_AIRPORT","ARRIVAL_AIRPORT","AIRCRAFT_TYPE"])`
call in `get_lazy_emissions`. -/
def emissionKey (e : EmissionRec) : String × String × String :=
  (e.depapt, e.arrapt, e.aircraft)

/-- Contract of `get_lazy_emissions` as a whole.  polars
`unique(subset=key)` defaults to `keep="any"`: it keeps exactly one
representative row per key but does not promise which one, so the loader is a
relation between the raw rows and the possible output tables: every output
row is a filtered input row, keys are pairwise distinct, and every key that
survives the seat filter is represented. -/
def isEmissionsLoad (raw : List RawEmission) (out : List EmissionRec) : Bool :=
  let base := raw.filterMap emissionRecOfRaw
  out.all (fun e => base.contains e) &&
    (out.map emissionKey).Nodup &&
    base.all (fun b => out.any (fun e => emissionKey e == emissionKey b))

/-- One row of the `find_flights` result (direct or 1-stop leg with CO2 and
flight detail attached). -/
structure RouteLeg where
  legCO2 : ℚ
  legTravelHours : ℚ
  departTime : Int
  arriveTime : Int
  routeType : String
  carrier : String
  fltno : Int
  depapt : String
  arrapt : String
deriving DecidableEq

/-- Inner join of schedule rows with the emissions table on
`(DEPAPT, ARRAPT, AIRCRAFT_TYPE_CLEAN) = (DEPARTURE_AIRPORT, ARRIVAL_AIRPORT, AIRCRAFT_TYPE)`. -/
def emisJoin (rows : List FlightLeg) (emis : List EmissionRec) :
    List (FlightLeg × EmissionRec) :=
  rows.flatMap (fun l =>
    (emis.filter (fun e =>
      e.depapt == l.depapt && e.arrapt == l.arrapt && e.aircraft == aircraftClean l)).map
      (fun e => (l, e)))

/-- The direct branch (`D0`) of `find_flights`: direct legs between the two
cities inside the window, joined to emissions, null CO2 / travel-hour rows
dropped.  The origin and destination arrive as `Option String` because
`find_flights` is sometimes called with `CITY_TO_CODE_MAP.get(...) = None`;
a `None` city matches no row (`col == None` is null, hence filtered out). -/
def directFlights (legs : List FlightLeg) (emis : List EmissionRec)
    (home dest : Option String) (ws we : Int) : List RouteLeg :=
  (emisJoin (legs.filter (fun l =>
      home == some l.depcity && dest == some l.arrcity && l.stops == 0 &&
      ws ≤ l.depTime && l.arrTime ≤ we)) emis).filterMap
    (fun le =>
      match le.2.co2pp, travelHours le.1 with
      | some c, some h =>
        some ⟨c, h, le.1.depTime, le.1.arrTime, "Direct", le.1.carrier, le.1.fltno,
          le.1.depapt, le.1.arrapt⟩
      | _, _ => none)

/-- First-segment candidates of the 1-stop branch: direct legs leaving the
origin at or after `window_start` (no upper bound), joined to emissions. -/
def leg1Rows (legs : List FlightLeg) (emis : List EmissionRec)
    (home : Option String) (ws : Int) : List (FlightLeg × EmissionRec) :=
  emisJoin (legs.filter (fun l =>
    home == some l.depcity && l.stops == 0 && ws ≤ l.depTime)) emis

/-- Second-segment candidates of the 1-stop branch: direct legs arriving at
the destination at or before `window_end` (no lower bound), joined to emissions. -/
def leg2Rows (legs : List FlightLeg) (emis : List EmissionRec)
    (dest : Option String) (we : Int) : List (FlightLeg × EmissionRec) :=
  emisJoin (legs.filter (fun l =>
    dest == some l.arrcity && l.stops == 0 && l.arrTime ≤ we)) emis

/-- The `layover` column: polars `dt.total_hours()` of
`DEPART_TIME_UTC_leg2 - ARRIVE_TIME_UTC` is the whole-hour count of the
duration, i.e. minutes divided by 60 truncating towards zero. -/
def layoverHoursI (l1 l2 : FlightLeg) : Int :=
  Int.tdiv (l2.depTime - l1.arrTime) 60

/-- The layover filter of `find_flights`:
`layover > 1.5h` and `layover < 8h`, applied to the integer hour count. -/
def layoverOk (l1 l2 : FlightLeg) : Bool :=
  decide ((3 : ℚ) / 2 < (layoverHoursI l1 l2 : ℚ)) &&
    decide ((layoverHoursI l1 l2 : ℚ) < 8)

/-- Builds a 1-stop `RouteLeg` out of a joined segment pair, when both CO2
and travel-hour values are present (the final `is_not_null` filters). -/
def mkOneStop (l1 : FlightLeg) (e1 : EmissionRec) (l2 : FlightLeg)
    (e2 : EmissionRec) : Option RouteLeg :=
  match e1.co2pp, e2.co2pp, travelHours l1, travelHours l2 with
  | some c1, some c2, some h1, some h2 =>
    some ⟨c1 + c2, h1 + h2 + (layoverHoursI l1 l2 : ℚ), l1.depTime, l2.arrTime,
      "1-Stop", l1.carrier, l1.fltno, l1.depapt, l2.arrapt⟩
  | _, _, _, _ => none

/-- The 1-stop branch (`D1`) of `find_flights`: join the two candidate sets on
"first leg's arrival airport = second leg's departure airport", keep pairs
passing the layover filter, sum CO2, sum travel hours plus layover. -/
def oneStopFlights (legs : List FlightLeg) (emis : List EmissionRec)
    (home dest : Option String) (ws we : Int) : List RouteLeg :=
  (leg1Rows legs emis home ws).flatMap (fun p1 =>
    ((leg2Rows legs emis dest we).filter
        (fun p2 => p2.1.depapt == p1.1.arrapt)).filterMap
      (fun p2 =>
        if layoverOk p1.1 p2.1 then mkOneStop p1.1 p1.2 p2.1 p2.2 else none))

/-- `find_flights`: direct legs, plus (when `include_connecting`) 1-stop legs. -/
def findFlights (legs : List FlightLeg) (emis : List EmissionRec)
    (home dest : Option String) (ws we : Int) (includeConnecting : Bool) :
    List RouteLeg :=
  if includeConnecting then
    directFlights legs emis home dest ws we ++ oneStopFlights legs emis home dest ws we
  else
    directFlights legs emis home dest ws we

/-- One row of the `get_all_valid_round_trips` result. -/
structure Trip where
  totalCO2 : ℚ
  totalTravelHours : ℚ
  firstArrival : Option Int
  lastDeparture : Option Int
  outboundRoute : String
  inboundRoute : String
  outCarrier : Option String
  outFltno : Option Int
  outDepUtc : Option Int
  outDepApt : Option String
  outArrApt : Option String
  inCarrier : Option String
  inFltno : Option Int
  inDepUtc : Option Int
  inDepApt : Option String
  inArrApt : Option String
deriving DecidableEq

/-- The degenerate single-row frame returned when origin equals destination. -/
def identityTrip : Trip :=
  ⟨0, 0, none, none, "Local", "Local", none, none, none, none, none, none, none,
    none, none, none⟩

/-- Combines an outbound and an inbound `RouteLeg` into a `Trip` row
(the `select` of `get_all_valid_round_trips`). -/
def mkTrip (o r : RouteLeg) : Trip :=
  ⟨o.legCO2 + r.legCO2, o.legTravelHours + r.legTravelHours,
    some o.arriveTime, some r.departTime, o.routeType, r.routeType,
    some o.carrier, some o.fltno, some o.departTime, some o.depapt, some o.arrapt,
    some r.carrier, some r.fltno, some r.departTime, some r.depapt, some r.arrapt⟩

/-- `get_all_valid_round_trips` (without the memo cache, which is semantically
transparent): the degenerate identity case, or the cross join of outbound and
inbound legs filtered by
`DEPART_TIME_UTC_return > ARRIVE_TIME_UTC + timedelta(hours=event_duration_hours)`.
`durH` is the event duration in hours. -/
def getAllValidRoundTrips (legs : List FlightLeg) (emis : List EmissionRec)
    (home meeting : Option String) (ws we : Int) (durH : Int)
    (includeConnecting : Bool) : List Trip :=
  if home == meeting then [identityTrip]
  else
    (findFlights legs emis home meeting ws we includeConnecting).flatMap (fun o =>
      ((findFlights legs emis meeting home ws we includeConnecting).filter
          (fun r => o.arriveTime + 60 * durH < r.departTime)).map
        (fun r => mkTrip o r))

/-- `create_compatibility_map`: the set of `(DEPCITY, ARRCITY)` pairs of
direct (`STOPS == 0`) legs, as a deduplicated list. -/
def compatibilitySet (legs : List FlightLeg) : List (String × String) :=
  ((legs.filter (fun l => l.stops == 0)).map (fun l => (l.depcity, l.arrcity))).dedup

/-- Arithmetic mean, `statistics.mean` (the program only applies it to
nonempty lists; on `[]` this total model yields `0 / 0 = 0`). -/
def meanQ (l : List ℚ) : ℚ := l.sum / l.length

/-- Python `max` over a nonempty rational list (0 as junk value on `[]`). -/
def maxQ : List ℚ → ℚ
  | [] => 0
  | x :: xs => xs.foldl max x

/-- Python `min` over a nonempty rational list (0 as junk value on `[]`). -/
def minQ : List ℚ → ℚ
  | [] => 0
  | x :: xs => xs.foldl min x

/-- Python `max` over a nonempty list of instants (0 as junk value on `[]`). -/
def maxI : List Int → Int
  | [] => 0
  | x :: xs => xs.foldl max x

/-- Python `min` over a nonempty list of instants (0 as junk value on `[]`). -/
def minI : List Int → Int
  | [] => 0
  | x :: xs => xs.foldl min x

/-- Rounding half-to-even to an integer, as Python's builtin `round`. -/
def roundHalfEven (q : ℚ) : ℤ :=
  let n := ⌊q⌋
  let f := q - (n : ℚ)
  if f < 1 / 2 then n
  else if 1 / 2 < f then n + 1
  else if n % 2 = 0 then n else n + 1

/-- Python `round(x, 2)` on the exact rational model. -/
def pyRound2 (q : ℚ) : ℚ := ((roundHalfEven (100 * q) : ℤ) : ℚ) / 100

/-- `statistics.median`: sort ascending (stable, like Python's sort); middle
element, or mean of the two middle elements for even length. -/
def medianQ (l : List ℚ) : ℚ :=
  let s := List.insertionSort (fun a b => a ≤ b) l
  let n := s.length
  if n % 2 = 1 then s.getD (n / 2) 0
  else (s.getD (n / 2 - 1) 0 + s.getD (n / 2) 0) / 2

/-- Sample standard deviation, `statistics.stdev`:
`sqrt(Σ (x - mean)² / (n - 1))`.  The only irrational operation of the
program; lives in `ℝ`. -/
noncomputable def sampleStdev (l : List ℚ) : ℝ :=
  Real.sqrt ((l.map (fun x => ((x : ℝ) - (meanQ l : ℝ)) ^ 2)).sum / ((l.length : ℝ) - 1))

/-- One element of `attendee_avg_scores` in Phase 1 of `find_best_meeting`:
a single attendee's home city with that group's mean round-trip CO2 and mean
travel hours (appended once per head of the group). -/
structure GroupStat where
  homeCity : String
  avgCO2 : ℚ
  avgTravel : ℚ
deriving DecidableEq

/-- Round trips for one attendee group towards a candidate city, as queried
by Phase 1 and Phase 2 (`CITY_TO_CODE_MAP.get(home_city_name)` may be `None`). -/
def groupTrips (legs : List FlightLeg) (emis : List EmissionRec)
    (ws we durH : Int) (ccf : Bool) (city : String) (name : String) : List Trip :=
  getAllValidRoundTrips legs emis (CITY_TO_CODE_MAP name) (some city) ws we durH ccf

/-- The Phase 1 pre-filter of `find_best_meeting`: every attendee whose
mapped home code differs from the candidate city must have both `(home, city)`
and `(city, home)` in the compatibility set; unmapped attendees are skipped. -/
def prefilterOk (legs : List FlightLeg) (att : List (String × Nat))
    (city : String) : Bool :=
  att.all (fun g =>
    match CITY_TO_CODE_MAP g.1 with
    | none => true
    | some h =>
      h == city ||
        ((compatibilitySet legs).contains (h, city) &&
          (compatibilitySet legs).contains (city, h)))

/-- The `attendee_avg_scores` list built by Phase 1 for one candidate city:
one `GroupStat` per attendee (each group's averaged sample repeated per
headcount). -/
def cityStats (legs : List FlightLeg) (emis : List EmissionRec)
    (att : List (String × Nat)) (ws we durH : Int) (ccf : Bool)
    (city : String) : List GroupStat :=
  att.flatMap (fun g =>
    let trips := groupTrips legs emis ws we durH ccf city g.1
    List.replicate g.2
      ⟨g.1, meanQ (trips.map Trip.totalCO2), meanQ (trips.map Trip.totalTravelHours)⟩)

/-- Whether a candidate city survives Phase 1: pre-filter, post-filter
(every attendee group finds at least one round trip) and a nonempty
`attendee_avg_scores` list. -/
def cityPasses (legs : List FlightLeg) (emis : List EmissionRec)
    (att : List (String × Nat)) (ws we durH : Int) (ccf : Bool)
    (city : String) : Bool :=
  prefilterOk legs att city &&
    att.all (fun g => !(groupTrips legs emis ws we durH ccf city g.1).isEmpty) &&
    !(cityStats legs emis att ws we durH ccf city).isEmpty

/-- `POTENTIAL_MEETING_CITIES`: every city with a direct leg from some
attendee's home city, union the home cities themselves (set order is
canonicalised by first occurrence). -/
def potentialMeetingCities (legs : List FlightLeg) (att : List (String × Nat)) :
    List String :=
  let homes := att.filterMap (fun g => CITY_TO_CODE_MAP g.1)
  (((legs.filter (fun l => homes.contains l.depcity && l.stops == 0)).map
      FlightLeg.arrcity) ++ homes).dedup

/-- The cities surviving Phase 1, paired with their `attendee_avg_scores`. -/
def phase1Survivors (legs : List FlightLeg) (emis : List EmissionRec)
    (att : List (String × Nat)) (ws we durH : Int) (ccf : Bool) :
    List (String × List GroupStat) :=
  ((potentialMeetingCities legs att).filter
      (cityPasses legs emis att ws we durH ccf)).map
    (fun c => (c, cityStats legs emis att ws we durH ccf c))

/-- The Phase 1 composite score of a surviving city, exactly as computed by
`find_best_meeting` (with its precomputed `weight_fairness` and `weight_std`). -/
noncomputable def cityScore (wc wa : ℚ) (stats : List GroupStat) : ℝ :=
  let weightFairness : ℚ := 1 - wc
  let weightStd : ℚ := 1 - wa
  let totalCO2 : ℚ := (stats.map GroupStat.avgCO2).sum
  let hrs : List ℚ := stats.map GroupStat.avgTravel
  let avgTravel : ℚ := meanQ hrs
  let stdDevTravel : ℝ := if 1 < hrs.length then sampleStdev hrs else 0
  let fairness : ℝ := (wa : ℝ) * (avgTravel : ℝ) + (weightStd : ℝ) * stdDevTravel
  (wc : ℝ) * (totalCO2 : ℝ) + (weightFairness : ℝ) * fairness

/-- The `city_scores` list of Phase 1 (city code with score). -/
noncomputable def phase1Scored (legs : List FlightLeg) (emis : List EmissionRec)
    (att : List (String × Nat)) (ws we durH : Int) (ccf : Bool) (wc wa : ℚ) :
    List (String × ℝ) :=
  (phase1Survivors legs emis att ws we durH ccf).map
    (fun cs => (cs.1, cityScore wc wa cs.2))

/-- `city_scores.sort(key=score)`: Python's stable ascending sort. -/
noncomputable def phase1Ranked (legs : List FlightLeg) (emis : List EmissionRec)
    (att : List (String × Nat)) (ws we durH : Int) (ccf : Bool) (wc wa : ℚ) :
    List (String × ℝ) :=
  List.insertionSort (fun a b => a.2 ≤ b.2)
    (phase1Scored legs emis att ws we durH ccf wc wa)

/-- One trip together with its attendee-group context
(`home_city` / `attendee_count` added by `get_final_json_for_city`). -/
structure TripCtx where
  trip : Trip
  homeCity : String
  attendeeCount : Nat
deriving DecidableEq

/-- `all_trips_df.sort("TOTAL_CO2")`: ascending by total CO2 (stable). -/
def sortByCO2 (trips : List Trip) : List Trip :=
  List.insertionSort (fun a b => a.totalCO2 ≤ b.totalCO2) trips

/-- The per-group option lists built by `get_final_json_for_city`
(`city_trip_options`): each mapped attendee group contributes its `limit`
lowest-CO2 round trips, tagged with group context; an attendee group with no
round trip makes the whole call fail (`return None`); unmapped home cities
are skipped. -/
def collectOptions (legs : List FlightLeg) (emis : List EmissionRec)
    (att : List (String × Nat)) (ws we durH : Int) (city : String)
    (limit : Nat) (ccf : Bool) : Option (List (List TripCtx)) :=
  match att with
  | [] => some []
  | g :: rest =>
    match CITY_TO_CODE_MAP g.1 with
    | none => collectOptions legs emis rest ws we durH city limit ccf
    | some home =>
      let topN :=
        (sortByCO2 (getAllValidRoundTrips legs emis (some home) (some city)
          ws we durH ccf)).take limit
      if topN.isEmpty then none
      else
        (collectOptions legs emis rest ws we durH city limit ccf).map
          (fun others => topN.map (fun t => ⟨t, g.1, g.2⟩) :: others)

/-- The event span (hours) of one combination of per-group trips: max of the
non-null last departures minus min of the non-null first arrivals, 0 when
either side is empty. -/
def spanHours (combo : List TripCtx) : ℚ :=
  let arrs := combo.filterMap (fun t => t.trip.firstArrival)
  let deps := combo.filterMap (fun t => t.trip.lastDeparture)
  if arrs.isEmpty || deps.isEmpty then 0
  else ((maxI deps - minI arrs : ℤ) : ℚ) / 60

/-- `itertools.product` over a list of lists (rightmost factor varies fastest). -/
def cartProd : List (List α) → List (List α)
  | [] => [[]]
  | l :: ls => l.flatMap (fun x => (cartProd ls).map (fun rest => x :: rest))

/-- One step of the Phase 2 span-minimisation loop: keep the incumbent unless
the new combination's span is strictly smaller (`float('inf')` start is `⊤`). -/
def pickStep (acc : Option (List TripCtx) × WithTop ℚ) (c : List TripCtx) :
    Option (List TripCtx) × WithTop ℚ :=
  if (spanHours c : WithTop ℚ) < acc.2 then (some c, (spanHours c : WithTop ℚ)) else acc

/-- The Phase 2 span-minimisation loop of `get_final_json_for_city`:
first combination with strictly smaller span replaces the incumbent, so the
first combination encountered wins ties. -/
def pickBestCombo (combos : List (List TripCtx)) : Option (List TripCtx) :=
  (combos.foldl pickStep (none, ⊤)).1

/-- The `best_itinerary` chosen by `get_final_json_for_city`: span-optimised
search over the Cartesian product of top-5 lists, or the single best
(lowest-CO2) option per group. -/
def chosenItinerary (legs : List FlightLeg) (emis : List EmissionRec)
    (att : List (String × Nat)) (ws we durH : Int) (city : String)
    (optimizeSpan ccf : Bool) : Option (List TripCtx) :=
  (collectOptions legs emis att ws we durH city (if optimizeSpan then 5 else 1)
      ccf).bind
    (fun lists =>
      if optimizeSpan then pickBestCombo (cartProd lists)
      else lists.mapM List.head?)

/-- One entry of the output `itinerary` list:
`[dep_apt, arr_apt, carrier, fltno, dep_utc, attendee_count, direction, route]`. -/
structure Ticket where
  depApt : Option String
  arrApt : Option String
  carrier : Option String
  fltno : Option Int
  depUtc : Option Int
  attendeeCount : Nat
  direction : String
  routeType : String
deriving DecidableEq

/-- The ticket entries contributed by one chosen trip: one outbound entry
unless the outbound route is `"Local"`, then one inbound entry unless the
inbound route is `"Local"`. -/
def ticketsOfTrip (tc : TripCtx) : List Ticket :=
  (if tc.trip.outboundRoute != "Local" then
    [⟨tc.trip.outDepApt, tc.trip.outArrApt, tc.trip.outCarrier, tc.trip.outFltno,
      tc.trip.outDepUtc, tc.attendeeCount, "out", tc.trip.outboundRoute⟩]
  else []) ++
  (if tc.trip.inboundRoute != "Local" then
    [⟨tc.trip.inDepApt, tc.trip.inArrApt, tc.trip.inCarrier, tc.trip.inFltno,
      tc.trip.inDepUtc, tc.attendeeCount, "in", tc.trip.inboundRoute⟩]
  else [])

/-- The `attendee_travel_hours` map: mean total travel hours per home city
over the headcount-unrolled itinerary, rounded to 2 decimals. -/
def attendeeTravelMap (unrolled : List TripCtx) : List (String × ℚ) :=
  ((unrolled.map (fun tc => tc.homeCity)).dedup).map (fun name =>
    (name,
      pyRound2 (meanQ ((unrolled.filter (fun tc => tc.homeCity == name)).map
        (fun tc => tc.trip.totalTravelHours)))))

/-- All display metrics of one city report (everything in the output object
except `rank` and `phase_1_score`). -/
structure CityMetrics where
  eventStart : Int
  eventEnd : Int
  spanStart : Int
  spanEnd : Int
  spanTotalHours : ℚ
  totalCO2Tonnes : ℚ
  avgCO2PerPerson : ℚ
  avgTravelHours : ℚ
  medianTravelHours : ℚ
  maxTravelHours : ℚ
  minTravelHours : ℚ
  attendeeTravelHours : List (String × ℚ)
  itinerary : List Ticket
deriving DecidableEq

/-- The metric part of `get_final_json_for_city`: chooses the itinerary,
unrolls it per headcount and computes every derived figure of the output
object.  `none` is the Python `return None` (infeasible city). -/
def cityMetrics (legs : List FlightLeg) (emis : List EmissionRec)
    (att : List (String × Nat)) (ws we durH : Int) (city : String)
    (optimizeSpan ccf : Bool) : Option CityMetrics :=
  (chosenItinerary legs emis att ws we durH city optimizeSpan ccf).bind
    (fun best =>
      if best.isEmpty then none
      else
        let unrolled := best.flatMap (fun tc => List.replicate tc.attendeeCount tc)
        let totalCO2 := (unrolled.map (fun tc => tc.trip.totalCO2)).sum
        let hrs := unrolled.map (fun tc => tc.trip.totalTravelHours)
        let arrs := unrolled.filterMap (fun tc => tc.trip.firstArrival)
        let deps := unrolled.filterMap (fun tc => tc.trip.lastDeparture)
        let degenerate := arrs.isEmpty || deps.isEmpty
        let spanStart := if degenerate then ws else minI arrs
        let spanEnd := if degenerate then we else maxI deps
        let meetingStart := if degenerate then ws else maxI arrs
        let spanH : ℚ := if degenerate then 0 else ((spanEnd - spanStart : ℤ) : ℚ) / 60
        some ⟨meetingStart, meetingStart + 60 * durH, spanStart, spanEnd,
          pyRound2 spanH, pyRound2 totalCO2,
          pyRound2 (totalCO2 / (unrolled.length : ℚ)), pyRound2 (meanQ hrs),
          pyRound2 (medianQ hrs), pyRound2 (maxQ hrs), pyRound2 (minQ hrs),
          attendeeTravelMap unrolled, best.flatMap ticketsOfTrip⟩)

/-- Rounding half-to-even at 2 decimals on the real-valued Phase 1 score. -/
noncomputable def realRound2 (x : ℝ) : ℝ :=
  let n := ⌊100 * x⌋
  let f := 100 * x - (n : ℝ)
  (if f < 1 / 2 then (n : ℝ)
   else if 1 / 2 < f then (n : ℝ) + 1
   else if n % 2 = 0 then (n : ℝ) else (n : ℝ) + 1) / 100

/-- One complete per-city result record. -/
structure Report where
  rank : Nat
  phase1Score : ℝ
  metrics : CityMetrics

/-- `get_final_json_for_city`: the metrics wrapped with rank and rounded
Phase 1 score. -/
noncomputable def getFinalJsonForCity (legs : List FlightLeg)
    (emis : List EmissionRec) (att : List (String × Nat)) (ws we durH : Int)
    (city : String) (rank : Nat) (phase1Score : ℝ) (optimizeSpan ccf : Bool) :
    Option Report :=
  (cityMetrics legs emis att ws we durH city optimizeSpan ccf).map
    (fun m => ⟨rank, realRound2 phase1Score, m⟩)

/-- One element of the list returned by `find_best_meeting`: either the
`{"error": ...}` record or a city report. -/
inductive RunOutput where
  | errorRec (msg : String)
  | report (r : Report)

/-- `find_best_meeting` from the point where schedule and emissions data are
loaded (Phase 0's file discovery is filesystem I/O outside the core; the
emissions table arrives deduplicated, see `isEmissionsLoad`).  Weight
validation raises (`Except.error`); span optimisation runs only for rank 1. -/
noncomputable def findBestMeeting (rawLegs : List FlightLeg)
    (emis : List EmissionRec) (att : List (String × Nat)) (ws we durH : Int)
    (wc wa : ℚ) (ccf : Bool) : Except String (List RunOutput) :=
  if ¬(0 ≤ wc ∧ wc ≤ 1) then Except.error "weight_co2 must be between 0.0 and 1.0"
  else if ¬(0 ≤ wa ∧ wa ≤ 1) then
    Except.error "weight_avg_vs_std must be between 0.0 and 1.0"
  else
    let legs := loadSchedules rawLegs
    let scored := phase1Scored legs emis att ws we durH ccf wc wa
    if scored.isEmpty then Except.ok [RunOutput.errorRec "No valid meeting locations found."]
    else
      Except.ok
        ((List.enumFrom 1 ((phase1Ranked legs emis att ws we durH ccf wc wa).take 3)).filterMap
          (fun ic =>
            (getFinalJsonForCity legs emis att ws we durH ic.2.1 ic.1 ic.2.2
                (ic.1 == 1) ccf).map RunOutput.report))

/-! Concrete test fixture: two attendee groups (Mumbai and London), a meeting
candidate SIN reachable directly from both, a stopover DXB giving Mumbai an
additional (more expensive, but span-reducing) 1-stop outbound option.
Times are minutes; every leg lasts `ELPTIM = 100`, i.e. one hour. -/

/-- Fixture schedule rows (all passenger, operating, direct legs). -/
def exLegs : List FlightLeg :=
  [⟨"AI", 1, "BOM", "SIN", some 100, 1000, 1060, 0, "A320", "BOM", "SIN", "J", "Y"⟩,
   ⟨"SQ", 2, "SIN", "BOM", some 100, 4000, 4060, 0, "A320", "SIN", "BOM", "J", "Y"⟩,
   ⟨"BA", 3, "LHR", "SIN", some 100, 1500, 1560, 0, "A320", "LON", "SIN", "J", "Y"⟩,
   ⟨"SQ", 4, "SIN", "LHR", some 100, 2000, 2060, 0, "A320", "SIN", "LON", "J", "Y"⟩,
   ⟨"EK", 5, "BOM", "DXB", some 100, 900, 950, 0, "A320", "BOM", "DXB", "J", "Y"⟩,
   ⟨"EK", 6, "DXB", "SIN", some 100, 1070, 1130, 0, "A320", "DXB", "SIN", "J", "Y"⟩]

/-- Fixture emissions table (already deduplicated; one factor per leg). -/
def exEmis : List EmissionRec :=
  [⟨"BOM", "SIN", "320", 100, some 1⟩,
   ⟨"SIN", "BOM", "320", 100, some 1⟩,
   ⟨"LHR", "SIN", "320", 100, some 1⟩,
   ⟨"SIN", "LHR", "320", 100, some 1⟩,
   ⟨"BOM", "DXB", "320", 100, some 2⟩,
   ⟨"DXB", "SIN", "320", 100, some 2⟩]

/-- Fixture attendee groups. -/
def exAtt : List (String × Nat) := [("Mumbai", 1), ("London", 1)]

/-- The `attendee_avg_scores` list of the fixture's surviving city SIN with
connecting flights disabled: one averaged sample per attendee. -/
def exStatsDirect : List GroupStat := [⟨"Mumbai", 2, 2⟩, ⟨"London", 2, 2⟩]

/-- The same list with connecting flights enabled: Mumbai's averages now also
cover the 1-stop round trip (mean over CO2 {2, 5} and hours {2, 5}). -/
def exStatsConn : List GroupStat := [⟨"Mumbai", 7/2, 7/2⟩, ⟨"London", 2, 2⟩]


/-- The direct Mumbai round trip of the fixture (legs `AI 1` out, `SQ 2` back). -/
def exTripDirect : Trip :=
  ⟨2, 2, some 1060, some 4000, "Direct", "Direct", some "AI", some 1, some 1000,
    some "BOM", some "SIN", some "SQ", some 2, some 4000, some "SIN", some "BOM"⟩

/-- The 1-stop Mumbai round trip of the fixture
(`EK 5` BOM→DXB + `EK 6` DXB→SIN out, `SQ 2` back). -/
def exTripOneStop : Trip :=
  ⟨5, 5, some 1130, some 4000, "1-Stop", "Direct", some "EK", some 5, some 900,
    some "BOM", some "SIN", some "SQ", some 2, some 4000, some "SIN", some "BOM"⟩

/-- The direct London round trip of the fixture (`BA 3` out, `SQ 4` back). -/
def exTripLon : Trip :=
  ⟨2, 2, some 1560, some 2000, "Direct", "Direct", some "BA", some 3, some 1500,
    some "LHR", some "SIN", some "SQ", some 4, some 2000, some "SIN", some "LHR"⟩
/-- The span-optimal fixture itinerary: the 1-stop Mumbai trip (arriving
1130, closer to London's 1560 arrival) beats the direct one. -/
def exChosen : List TripCtx :=
  [⟨exTripOneStop, "Mumbai", 1⟩, ⟨exTripLon, "London", 1⟩]

/-- A two-leg fixture whose connection has a layover of exactly 100 minutes
(5/3 hours: inside the spec's open interval (1.5h, 8h), but truncated to 1
whole hour by `dt.total_hours()`). -/
def cexLegs : List FlightLeg :=
  [⟨"EK", 11, "BOM", "DXB", some 100, 0, 60, 0, "A320", "BOM", "DXB", "J", "Y"⟩,
   ⟨"EK", 12, "DXB", "SIN", some 100, 160, 220, 0, "A320", "DXB", "SIN", "J", "Y"⟩]

/-- First leg of `cexLegs` (BOM→DXB, arriving minute 60). -/
def cexLeg1 : FlightLeg :=
  ⟨"EK", 11, "BOM", "DXB", some 100, 0, 60, 0, "A320", "BOM", "DXB", "J", "Y"⟩

/-- Second leg of `cexLegs` (DXB→SIN, departing minute 160). -/
def cexLeg2 : FlightLeg :=
  ⟨"EK", 12, "DXB", "SIN", some 100, 160, 220, 0, "A320", "DXB", "SIN", "J", "Y"⟩

/-- The emissions record joined to BOM→DXB legs in the fixtures. -/
def cexEmis1 : EmissionRec := ⟨"BOM", "DXB", "320", 100, some 2⟩

/-- The emissions record joined to DXB→SIN legs in the fixtures. -/
def cexEmis2 : EmissionRec := ⟨"DXB", "SIN", "320", 100, some 2⟩

/-- The 1-stop BOM→SIN `RouteLeg` arising from the main fixture
(`EK 5` BOM→DXB + `EK 6` DXB→SIN, 2-hour layover). -/
def exOneStopLeg : RouteLeg := ⟨4, 4, 900, 1130, "1-Stop", "EK", 5, "BOM", "SIN"⟩

/-- A raw emissions table with two rows sharing one key. -/
def cexRawEmis : List RawEmission :=
  [⟨"AAA", "BBB", "320", some 100, some 10⟩,
   ⟨"AAA", "BBB", "320", some 100, some 20⟩]

/-- The loaded record of the first `cexRawEmis` row. -/
def cexRec1 : EmissionRec := ⟨"AAA", "BBB", "320", 100, some (1 / 10)⟩

/-- The loaded record of the second `cexRawEmis` row. -/
def cexRec2 : EmissionRec := ⟨"AAA", "BBB", "320", 100, some (1 / 5)⟩

/-- A pair of direct segments qualifying for the 1-stop join of
`find_flights`: first segment in the origin-side candidate set, second in the
destination-side candidate set, joined on "first leg's arrival airport =
second leg's departure airport" (both sets already joined to emissions). -/
def oneStopSegments (legs : List FlightLeg) (emis : List EmissionRec)
    (home dest : Option String) (ws we : Int) (l1 : FlightLeg) (e1 : EmissionRec)
    (l2 : FlightLeg) (e2 : EmissionRec) : Prop :=
  (l1, e1) ∈ leg1Rows legs emis home ws ∧
    (l2, e2) ∈ leg2Rows legs emis dest we ∧ l2.depapt = l1.arrapt

instance (legs : List FlightLeg) (emis : List EmissionRec)
    (home dest : Option String) (ws we : Int) (l1 : FlightLeg) (e1 : EmissionRec)
    (l2 : FlightLeg) (e2 : EmissionRec) :
    Decidable (oneStopSegments legs emis home dest ws we l1 e1 l2 e2) := by
  unfold oneStopSegments
  infer_instance

/-- Group-level Phase 1 data: one attendee group's headcount with its mean
round-trip CO2 and mean travel hours. -/
structure GroupAverage where
  headcount : Nat
  avgCO2 : ℚ
  avgTravel : ℚ
deriving DecidableEq

/-- The group-level averages behind Phase 1's per-city statistics. -/
def groupAverages (legs : List FlightLeg) (emis : List EmissionRec)
    (att : List (String × Nat)) (ws we durH : Int) (ccf : Bool)
    (city : String) : List GroupAverage :=
  att.map (fun g =>
    let trips := groupTrips legs emis ws we durH ccf city g.1
    ⟨g.2, meanQ (trips.map Trip.totalCO2), meanQ (trips.map Trip.totalTravelHours)⟩)

/-- The Phase 1 composite score exactly as the specification words it:
`score = weightCO2 * totalCO2 + (1 - weightCO2) * (weightAvgVsStd * mean(travelHours)
+ (1 - weightAvgVsStd) * stdev(travelHours))`, with `totalCO2` the sum over
attendees of each group's mean CO2 repeated once per headcount, and the mean
and sample standard deviation taken over the headcount-repeated mean travel
hours (stdev 0 when there are fewer than two attendees). -/
noncomputable def specScorePhase1 (wc wa : ℚ) (gs : List GroupAverage) : ℝ :=
  let totalCO2 : ℚ := (gs.map (fun g => (g.headcount : ℚ) * g.avgCO2)).sum
  let repeated : List ℚ := gs.flatMap (fun g => List.replicate g.headcount g.avgTravel)
  let stdev : ℝ := if 1 < repeated.length then sampleStdev repeated else 0
  (wc : ℝ) * (totalCO2 : ℝ) +
    (1 - (wc : ℝ)) * ((wa : ℝ) * (meanQ repeated : ℝ) + (1 - (wa : ℝ)) * stdev)

/-- The reported `total_co2_tonnes` of the rank-1 result, when present. -/
def rank1CO2 : Except String (List RunOutput) → Option ℚ
  | Except.ok (RunOutput.report r :: _) => some r.metrics.totalCO2Tonnes
  | _ => none

/-- Total CO2 of a chosen itinerary before unrolling: each group's trip CO2
weighted by its headcount. -/
def sumCO2 (best : List TripCtx) : ℚ :=
  (best.map (fun tc => (tc.attendeeCount : ℚ) * tc.trip.totalCO2)).sum

/-! ### Shared helper lemmas -/

theorem mem_emisJoin {rows : List FlightLeg} {emis : List EmissionRec}
    {l : FlightLeg} {e : EmissionRec} :
    (l, e) ∈ emisJoin rows emis ↔
      l ∈ rows ∧ e ∈ emis ∧ e.depapt = l.depapt ∧
        e.arrapt = l.arrapt ∧ e.aircraft = aircraftClean l := by
  simp only [emisJoin, List.mem_flatMap, List.mem_map, List.mem_filter,
    Bool.and_eq_true, beq_iff_eq, Prod.mk.injEq]
  constructor
  · rintro ⟨l1, hl1, e1, ⟨he1, ⟨hk1, hk2⟩, hk3⟩, hle, hee⟩
    subst hle
    subst hee
    exact ⟨hl1, he1, hk1, hk2, hk3⟩
  · rintro ⟨hl, he, hk1, hk2, hk3⟩
    exact ⟨l, hl, e, ⟨he, ⟨hk1, hk2⟩, hk3⟩, rfl, rfl⟩

theorem layoverOk_iff (l1 l2 : FlightLeg) :
    layoverOk l1 l2 = true ↔
      120 ≤ l2.depTime - l1.arrTime ∧ l2.depTime - l1.arrTime < 480 := by
  have hcast : ∀ k : ℤ, ((3 : ℚ) / 2 < (k : ℚ) ∧ (k : ℚ) < 8) ↔ (2 ≤ k ∧ k ≤ 7) := by
    intro k
    constructor
    · rintro ⟨h1, h2⟩
      have ha : (1 : ℚ) < (k : ℚ) := by linarith
      have hb : (1 : ℤ) < k := by exact_mod_cast ha
      have hc : k < 8 := by exact_mod_cast h2
      omega
    · rintro ⟨h1, h2⟩
      have ha : (2 : ℚ) ≤ (k : ℚ) := by exact_mod_cast h1
      have hb : (k : ℚ) ≤ 7 := by exact_mod_cast h2
      constructor <;> linarith
  have htdiv : ∀ Δ : ℤ, (2 ≤ Int.tdiv Δ 60 ∧ Int.tdiv Δ 60 ≤ 7) ↔
      (120 ≤ Δ ∧ Δ < 480) := by
    intro Δ
    rcases le_or_lt 0 Δ with h | h
    · rw [Int.tdiv_eq_ediv h (by norm_num)]
      omega
    · have h2 : Int.tdiv Δ 60 ≤ 0 := by
        have hrw : Δ = -(-Δ) := by ring
        rw [hrw, Int.neg_tdiv]
        have := Int.tdiv_nonneg (a := -Δ) (b := 60) (by omega) (by norm_num)
        omega
      omega
  rw [layoverOk, Bool.and_eq_true, decide_eq_true_iff, decide_eq_true_iff,
    layoverHoursI]
  rw [hcast, htdiv]

theorem mem_oneStopFlights_iff {legs : List FlightLeg} {emis : List EmissionRec}
    {home dest : Option String} {ws we : Int} {r : RouteLeg} :
    r ∈ oneStopFlights legs emis home dest ws we ↔
      ∃ l1 e1 l2 e2, oneStopSegments legs emis home dest ws we l1 e1 l2 e2 ∧
        120 ≤ l2.depTime - l1.arrTime ∧ l2.depTime - l1.arrTime < 480 ∧
        mkOneStop l1 e1 l2 e2 = some r := by
  simp only [oneStopFlights, List.mem_flatMap, List.mem_filterMap,
    List.mem_filter, beq_iff_eq, oneStopSegments]
  constructor
  · rintro ⟨⟨l1, e1⟩, h1, ⟨l2, e2⟩, ⟨⟨h2, hj⟩, hif⟩⟩
    by_cases hok : layoverOk l1 l2 = true
    · rw [if_pos hok] at hif
      obtain ⟨hb1, hb2⟩ := (layoverOk_iff l1 l2).mp hok
      exact ⟨l1, e1, l2, e2, ⟨h1, h2, hj⟩, hb1, hb2, hif⟩
    · rw [if_neg hok] at hif
      cases hif
  · rintro ⟨l1, e1, l2, e2, ⟨h1, h2, hj⟩, hb1, hb2, hmk⟩
    refine ⟨⟨l1, e1⟩, h1, ⟨l2, e2⟩, ⟨⟨h2, hj⟩, ?_⟩⟩
    rw [if_pos ((layoverOk_iff l1 l2).mpr ⟨hb1, hb2⟩)]
    exact hmk

theorem mem_getAllValidRoundTrips_iff {legs : List FlightLeg}
    {emis : List EmissionRec} {home meeting : Option String} {ws we durH : Int}
    {ic : Bool} {t : Trip} (hne : home ≠ meeting) :
    t ∈ getAllValidRoundTrips legs emis home meeting ws we durH ic ↔
      ∃ o, o ∈ findFlights legs emis home meeting ws we ic ∧
        ∃ r, r ∈ findFlights legs emis meeting home ws we ic ∧
          o.arriveTime + 60 * durH < r.departTime ∧ t = mkTrip o r := by
  rw [getAllValidRoundTrips, if_neg (by simp [hne])]
  simp only [List.mem_flatMap, List.mem_map, List.mem_filter, decide_eq_true_eq]
  constructor
  · rintro ⟨o, ho, r, ⟨hr, hlt⟩, heq⟩
    exact ⟨o, ho, r, hr, hlt, heq.symm⟩
  · rintro ⟨o, ho, r, hr, hlt, heq⟩
    exact ⟨o, ho, r, ⟨hr, hlt⟩, heq.symm⟩

theorem directFlights_eq_nil_of_not_compat {legs : List FlightLeg}
    {a b : String} (hmiss : (a, b) ∉ compatibilitySet legs)
    (emis : List EmissionRec) (ws we : Int) :
    directFlights legs emis (some a) (some b) ws we = [] := by
  have hf : legs.filter (fun l =>
      (some a == some l.depcity && some b == some l.arrcity && l.stops == 0 &&
        decide (ws ≤ l.depTime) && decide (l.arrTime ≤ we))) = [] := by
    rw [List.filter_eq_nil_iff]
    intro l hl hp
    simp only [Bool.and_eq_true, beq_iff_eq, Option.some.injEq,
      decide_eq_true_eq] at hp
    obtain ⟨⟨⟨⟨ha, hb⟩, hs⟩, -⟩, -⟩ := hp
    apply hmiss
    simp only [compatibilitySet, List.mem_dedup, List.mem_map, List.mem_filter]
    exact ⟨l, ⟨hl, by simp [hs]⟩, by simp [ha, hb]⟩
  rw [directFlights, hf]
  rfl

/-! ### Claim theorems -/

/-- C6: for every window and event duration, `get_all_valid_round_trips` with
origin equal to destination returns exactly one `RoundTripOption`, with zero
total CO2 and travel hours, null first-arrival and last-departure markers,
route type "Local" on both legs, and null carrier/flight/airport detail. -/
theorem c6_identity_case (legs : List FlightLeg) (emis : List EmissionRec)
    (c : String) (ws we durH : Int) (ic : Bool) :
    getAllValidRoundTrips legs emis (some c) (some c) ws we durH ic =
        [identityTrip] ∧
      identityTrip.totalCO2 = 0 ∧ identityTrip.totalTravelHours = 0 ∧
      identityTrip.firstArrival = none ∧ identityTrip.lastDeparture = none ∧
      identityTrip.outboundRoute = "Local" ∧ identityTrip.inboundRoute = "Local" ∧
      identityTrip.outCarrier = none ∧ identityTrip.outFltno = none ∧
      identityTrip.outDepUtc = none ∧ identityTrip.outDepApt = none ∧
      identityTrip.outArrApt = none ∧ identityTrip.inCarrier = none ∧
      identityTrip.inFltno = none ∧ identityTrip.inDepUtc = none ∧
      identityTrip.inDepApt = none ∧ identityTrip.inArrApt = none := by
  refine ⟨?_, rfl, rfl, rfl, rfl, rfl, rfl, rfl, rfl, rfl, rfl, rfl, rfl, rfl,
    rfl, rfl, rfl⟩
  rw [getAllValidRoundTrips, if_pos (by simp)]

/-- C2: every `RoundTripOption` produced by `get_all_valid_round_trips` with
origin different from destination has its inbound departure instant strictly
later than its outbound arrival instant plus the event duration in hours. -/
theorem c2_round_trip_gap (legs : List FlightLeg) (emis : List EmissionRec)
    (home meeting : Option String) (ws we durH : Int) (ic : Bool) (t : Trip)
    (hne : home ≠ meeting)
    (ht : t ∈ getAllValidRoundTrips legs emis home meeting ws we durH ic) :
    ∃ a d, t.firstArrival = some a ∧ t.lastDeparture = some d ∧
      a + 60 * durH < d := by
  rw [mem_getAllValidRoundTrips_iff hne] at ht
  obtain ⟨o, ho, r, hr, hlt, rfl⟩ := ht
  exact ⟨o.arriveTime, r.departTime, rfl, rfl, hlt⟩

/-- Witness for C2: the fixture's direct Mumbai round trip satisfies the gap
condition. -/
theorem c2_round_trip_gap_witness :
    (some "BOM" : Option String) ≠ some "SIN" ∧
    exTripDirect ∈ getAllValidRoundTrips exLegs exEmis (some "BOM") (some "SIN")
      0 100000 1 true ∧
    ∃ a d, exTripDirect.firstArrival = some a ∧
      exTripDirect.lastDeparture = some d ∧ a + 60 * 1 < d :=
  ⟨by decide, by decide,
    c2_round_trip_gap exLegs exEmis (some "BOM") (some "SIN") 0 100000 1 true
      exTripDirect (by decide) (by decide)⟩

/-- C5: if the Phase 1 pre-filter rejects a candidate city because
`(home, city)` or `(city, home)` is missing from the compatibility set, then
no direct-legs-only round trip exists in any time window, and the direct
branch of `find_flights` returns no rows for the rejected direction under any
window. -/
theorem c5_prefilter_soundness (legs : List FlightLeg) (emis : List EmissionRec)
    (h c : String) (hne : h ≠ c)
    (hmiss : (h, c) ∉ compatibilitySet legs ∨ (c, h) ∉ compatibilitySet legs) :
    (∀ ws we durH,
      getAllValidRoundTrips legs emis (some h) (some c) ws we durH false = []) ∧
    ((h, c) ∉ compatibilitySet legs →
      ∀ ws we, directFlights legs emis (some h) (some c) ws we = []) ∧
    ((c, h) ∉ compatibilitySet legs →
      ∀ ws we, directFlights legs emis (some c) (some h) ws we = []) := by
  refine ⟨?_, fun hm ws we => directFlights_eq_nil_of_not_compat hm emis ws we,
    fun hm ws we => directFlights_eq_nil_of_not_compat hm emis ws we⟩
  intro ws we durH
  rw [getAllValidRoundTrips, if_neg (by simp [hne])]
  rcases hmiss with hm | hm
  · rw [show findFlights legs emis (some h) (some c) ws we false =
        directFlights legs emis (some h) (some c) ws we from rfl,
      directFlights_eq_nil_of_not_compat hm emis ws we]
    rfl
  · rw [show findFlights legs emis (some c) (some h) ws we false =
        directFlights legs emis (some c) (some h) ws we from rfl,
      directFlights_eq_nil_of_not_compat hm emis ws we]
    simp

/-- Witness for C5: the fixture has no direct LON→DXB route, so DXB is
pre-filtered for the London group and the direct branch and direct-only round
trips are empty. -/
theorem c5_prefilter_soundness_witness :
    ("LON" ≠ "DXB") ∧
    ((("LON", "DXB") ∉ compatibilitySet exLegs) ∨
      (("DXB", "LON") ∉ compatibilitySet exLegs)) ∧
    getAllValidRoundTrips exLegs exEmis (some "LON") (some "DXB") 0 100000 1
      false = [] ∧
    directFlights exLegs exEmis (some "LON") (some "DXB") 0 100000 = [] :=
  have hth := c5_prefilter_soundness exLegs exEmis "LON" "DXB" (by decide)
    (Or.inl (by decide))
  ⟨by decide, Or.inl (by decide), hth.1 0 100000 1, hth.2.1 (by decide) 0 100000⟩

theorem mkOneStop_eq_some {l1 : FlightLeg} {e1 : EmissionRec} {l2 : FlightLeg}
    {e2 : EmissionRec} {x : RouteLeg} (h : mkOneStop l1 e1 l2 e2 = some x) :
    x.routeType = "1-Stop" ∧ x.carrier = l1.carrier ∧ x.fltno = l1.fltno ∧
      x.depapt = l1.depapt ∧ x.departTime = l1.depTime ∧
      x.arrapt = l2.arrapt ∧ x.arriveTime = l2.arrTime := by
  unfold mkOneStop at h
  split at h
  · obtain rfl := Option.some.inj h
    exact ⟨rfl, rfl, rfl, rfl, rfl, rfl, rfl⟩
  · exact Option.noConfusion h

theorem routeType_of_mem_directFlights {legs : List FlightLeg}
    {emis : List EmissionRec} {home dest : Option String} {ws we : Int}
    {x : RouteLeg} (hx : x ∈ directFlights legs emis home dest ws we) :
    x.routeType = "Direct" := by
  simp only [directFlights, List.mem_filterMap] at hx
  obtain ⟨⟨l, e⟩, hmem, hx⟩ := hx
  split at hx
  · obtain rfl := Option.some.inj hx
    rfl
  · exact Option.noConfusion hx

theorem mem_findFlights_cases {legs : List FlightLeg} {emis : List EmissionRec}
    {home dest : Option String} {ws we : Int} {ic : Bool} {x : RouteLeg}
    (hx : x ∈ findFlights legs emis home dest ws we ic) :
    x ∈ directFlights legs emis home dest ws we ∨
      x ∈ oneStopFlights legs emis home dest ws we := by
  rw [findFlights] at hx
  cases ic with
  | true => simpa using (List.mem_append.mp (by simpa using hx))
  | false => exact Or.inl (by simpa using hx)

/-- C1 (amended): a joined pair of direct segments is kept as a one-stop leg
if and only if its layover (second departure minus first arrival) is at least
2 hours and strictly less than 8 hours — `dt.total_hours()` truncates the
layover to whole hours before the `> 1.5h` comparison; in particular every
kept one-stop leg arises from a pair whose exact layover lies strictly
between 1.5 and 8 hours, as the claim's second half states. -/
theorem c1_onestop_layover_window (legs : List FlightLeg)
    (emis : List EmissionRec) (home dest : Option String) (ws we : Int)
    (r : RouteLeg) :
    (r ∈ oneStopFlights legs emis home dest ws we ↔
      ∃ l1 e1 l2 e2, oneStopSegments legs emis home dest ws we l1 e1 l2 e2 ∧
        2 ≤ ((l2.depTime - l1.arrTime : ℤ) : ℚ) / 60 ∧
        ((l2.depTime - l1.arrTime : ℤ) : ℚ) / 60 < 8 ∧
        mkOneStop l1 e1 l2 e2 = some r) ∧
    (r ∈ oneStopFlights legs emis home dest ws we →
      ∃ l1 e1 l2 e2, oneStopSegments legs emis home dest ws we l1 e1 l2 e2 ∧
        (3 : ℚ) / 2 < ((l2.depTime - l1.arrTime : ℤ) : ℚ) / 60 ∧
        ((l2.depTime - l1.arrTime : ℤ) : ℚ) / 60 < 8 ∧
        mkOneStop l1 e1 l2 e2 = some r) := by
  have hlo : ∀ Δ : ℤ, (120 ≤ Δ ↔ 2 ≤ (Δ : ℚ) / 60) := by
    intro Δ
    rw [le_div_iff₀ (by norm_num : (0:ℚ) < 60)]
    constructor
    · intro h
      exact_mod_cast h
    · intro h
      exact_mod_cast h
  have hhi : ∀ Δ : ℤ, (Δ < 480 ↔ (Δ : ℚ) / 60 < 8) := by
    intro Δ
    rw [div_lt_iff₀ (by norm_num : (0:ℚ) < 60)]
    constructor
    · intro h
      exact_mod_cast h
    · intro h
      exact_mod_cast h
  constructor
  · rw [mem_oneStopFlights_iff]
    constructor
    · rintro ⟨l1, e1, l2, e2, hseg, hb1, hb2, hmk⟩
      exact ⟨l1, e1, l2, e2, hseg, (hlo _).mp hb1, (hhi _).mp hb2, hmk⟩
    · rintro ⟨l1, e1, l2, e2, hseg, hb1, hb2, hmk⟩
      exact ⟨l1, e1, l2, e2, hseg, (hlo _).mpr hb1, (hhi _).mpr hb2, hmk⟩
  · intro hr
    obtain ⟨l1, e1, l2, e2, hseg, hb1, hb2, hmk⟩ :=
      mem_oneStopFlights_iff.mp hr
    refine ⟨l1, e1, l2, e2, hseg, ?_, (hhi _).mp hb2, hmk⟩
    have h2 : (2 : ℚ) ≤ ((l2.depTime - l1.arrTime : ℤ) : ℚ) / 60 := (hlo _).mp hb1
    linarith

/-- C1 counterexample: in `cexLegs` the qualifying BOM→DXB→SIN pair has a
layover of 100 minutes = 5/3 hours, strictly between 1.5 and 8 hours, yet the
1-stop output is empty — the claim's "if and only if" fails in the "if"
direction. -/
theorem c1_onestop_layover_counterexample :
    oneStopSegments cexLegs exEmis (some "BOM") (some "SIN") 0 100000
        cexLeg1 cexEmis1 cexLeg2 cexEmis2 ∧
    (3 : ℚ) / 2 < ((cexLeg2.depTime - cexLeg1.arrTime : ℤ) : ℚ) / 60 ∧
    ((cexLeg2.depTime - cexLeg1.arrTime : ℤ) : ℚ) / 60 < 8 ∧
    oneStopFlights cexLegs exEmis (some "BOM") (some "SIN") 0 100000 = [] :=
  ⟨by decide, by decide, by decide, by decide⟩

/-- Witness for C1: the fixture's kept 1-stop leg (2-hour layover) realises
the amended characterisation. -/
theorem c1_onestop_layover_window_witness :
    exOneStopLeg ∈ oneStopFlights exLegs exEmis (some "BOM") (some "SIN")
        0 100000 ∧
    ∃ l1 e1 l2 e2,
      oneStopSegments exLegs exEmis (some "BOM") (some "SIN") 0 100000
          l1 e1 l2 e2 ∧
        (3 : ℚ) / 2 < ((l2.depTime - l1.arrTime : ℤ) : ℚ) / 60 ∧
        ((l2.depTime - l1.arrTime : ℤ) : ℚ) / 60 < 8 ∧
        mkOneStop l1 e1 l2 e2 = some exOneStopLeg :=
  ⟨by decide,
    (c1_onestop_layover_window exLegs exEmis (some "BOM") (some "SIN") 0 100000
      exOneStopLeg).2 (by decide)⟩

/-- C8 (amended): after loading, the emissions table has at most one record
per (departure airport, arrival airport, aircraft type) key; each retained
record is one of the seat-filtered input records for its key, but which
duplicate is retained is unspecified (`unique` defaults to `keep="any"`). -/
theorem c8_emissions_unique_by_key (raw : List RawEmission)
    (out : List EmissionRec) (h : isEmissionsLoad raw out = true) :
    (out.map emissionKey).Nodup ∧
      (∀ e ∈ out, e ∈ raw.filterMap emissionRecOfRaw) ∧
      (∀ b ∈ raw.filterMap emissionRecOfRaw,
        ∃ e ∈ out, emissionKey e = emissionKey b) := by
  rw [isEmissionsLoad] at h
  simp only [Bool.and_eq_true, List.all_eq_true, decide_eq_true_eq,
    List.any_eq_true, beq_iff_eq] at h
  obtain ⟨⟨hin, hnd⟩, hcov⟩ := h
  refine ⟨hnd, fun e he => ?_, fun b hb => hcov b hb⟩
  simpa using hin e he

/-- C8 counterexample: on a raw table whose two rows share one key, retaining
only the second row is a legal load result, so "the record retained is the
first one in input order" is false. -/
theorem c8_emissions_unique_counterexample :
    ¬ ∀ out : List EmissionRec, isEmissionsLoad cexRawEmis out = true →
        cexRec1 ∈ out := by
  intro hclaim
  have h2 : cexRec1 ∈ [cexRec2] := hclaim [cexRec2] (by decide)
  exact absurd h2 (by decide)

/-- Witness for C8: retaining the first duplicate is also a legal load
result, with the amended guarantees. -/
theorem c8_emissions_unique_by_key_witness :
    isEmissionsLoad cexRawEmis [cexRec1] = true ∧
      (([cexRec1].map emissionKey).Nodup ∧
        (∀ e ∈ [cexRec1], e ∈ cexRawEmis.filterMap emissionRecOfRaw) ∧
        (∀ b ∈ cexRawEmis.filterMap emissionRecOfRaw,
          ∃ e ∈ [cexRec1], emissionKey e = emissionKey b)) :=
  ⟨by decide, c8_emissions_unique_by_key cexRawEmis [cexRec1] (by decide)⟩

/-- C10: every chosen round-trip leg tagged "1-Stop" yields a single ticket
entry carrying the first segment's carrier, flight number, departure airport
and departure instant together with the second segment's arrival airport; and
every emitted ticket entry carries only the trip's leg-level carrier/flight
fields (which for a 1-stop leg are the first segment's), so the connecting
segment's carrier and flight number appear nowhere in the output. -/
theorem c10_onestop_ticket_fields (legs : List FlightLeg)
    (emis : List EmissionRec) (home meeting : Option String) (ws we durH : Int)
    (ic : Bool) (t : Trip) (name : String) (cnt : Nat) (hne : home ≠ meeting)
    (ht : t ∈ getAllValidRoundTrips legs emis home meeting ws we durH ic) :
    (t.outboundRoute = "1-Stop" →
      ∃ l1 e1 l2 e2,
        oneStopSegments legs emis home meeting ws we l1 e1 l2 e2 ∧
        (ticketsOfTrip ⟨t, name, cnt⟩).filter (fun tk => tk.direction == "out") =
          [⟨some l1.depapt, some l2.arrapt, some l1.carrier, some l1.fltno,
            some l1.depTime, cnt, "out", "1-Stop"⟩]) ∧
    (t.inboundRoute = "1-Stop" →
      ∃ l1 e1 l2 e2,
        oneStopSegments legs emis meeting home ws we l1 e1 l2 e2 ∧
        (ticketsOfTrip ⟨t, name, cnt⟩).filter (fun tk => tk.direction == "in") =
          [⟨some l1.depapt, some l2.arrapt, some l1.carrier, some l1.fltno,
            some l1.depTime, cnt, "in", "1-Stop"⟩]) ∧
    (∀ tk ∈ ticketsOfTrip ⟨t, name, cnt⟩,
      (tk.carrier = t.outCarrier ∧ tk.fltno = t.outFltno) ∨
        (tk.carrier = t.inCarrier ∧ tk.fltno = t.inFltno)) := by
  obtain ⟨o, ho, r, hr, hlt, rfl⟩ := (mem_getAllValidRoundTrips_iff hne).mp ht
  refine ⟨?_, ?_, ?_⟩
  · intro hout
    have hro : o.routeType = "1-Stop" := hout
    have hos : o ∈ oneStopFlights legs emis home meeting ws we := by
      rcases mem_findFlights_cases ho with hd | hs
      · rw [routeType_of_mem_directFlights hd] at hro
        exact absurd hro (by decide)
      · exact hs
    obtain ⟨l1, e1, l2, e2, hseg, _, _, hmk⟩ := mem_oneStopFlights_iff.mp hos
    obtain ⟨hrt, hca, hfl, hda, hdt, haa, hat⟩ := mkOneStop_eq_some hmk
    refine ⟨l1, e1, l2, e2, hseg, ?_⟩
    have hloc : (o.routeType != "Local") = true := by
      rw [hro]
      decide
    simp only [ticketsOfTrip, mkTrip, hloc, if_true, List.filter_append]
    rw [hro, hca, hfl, hda, hdt, haa]
    split
    · simp
    · simp
  · intro hin
    have hrr : r.routeType = "1-Stop" := hin
    have hrs : r ∈ oneStopFlights legs emis meeting home ws we := by
      rcases mem_findFlights_cases hr with hd | hs
      · rw [routeType_of_mem_directFlights hd] at hrr
        exact absurd hrr (by decide)
      · exact hs
    obtain ⟨l1, e1, l2, e2, hseg, _, _, hmk⟩ := mem_oneStopFlights_iff.mp hrs
    obtain ⟨hrt, hca, hfl, hda, hdt, haa, hat⟩ := mkOneStop_eq_some hmk
    refine ⟨l1, e1, l2, e2, hseg, ?_⟩
    have hloc : (r.routeType != "Local") = true := by
      rw [hrr]
      decide
    simp only [ticketsOfTrip, mkTrip, hloc, if_true, List.filter_append]
    rw [hrr, hca, hfl, hda, hdt, haa]
    split
    · simp
    · simp
  · intro tk htk
    simp only [ticketsOfTrip, List.mem_append] at htk
    rcases htk with htk | htk <;> rw [List.mem_ite_nil_right] at htk <;>
      rcases htk with ⟨-, htk⟩ <;> rcases List.mem_singleton.mp htk with rfl
    · exact Or.inl ⟨rfl, rfl⟩
    · exact Or.inr ⟨rfl, rfl⟩

theorem cityStats_map_co2 (legs : List FlightLeg) (emis : List EmissionRec)
    (att : List (String × Nat)) (ws we durH : Int) (ccf : Bool) (city : String) :
    (cityStats legs emis att ws we durH ccf city).map GroupStat.avgCO2 =
      (groupAverages legs emis att ws we durH ccf city).flatMap
        (fun g => List.replicate g.headcount g.avgCO2) := by
  induction att with
  | nil => rfl
  | cons g rest ih =>
    simp only [cityStats, groupAverages, List.flatMap_cons, List.map_cons,
      List.map_append, List.map_replicate] at ih ⊢
    rw [ih]

theorem cityStats_map_travel (legs : List FlightLeg) (emis : List EmissionRec)
    (att : List (String × Nat)) (ws we durH : Int) (ccf : Bool) (city : String) :
    (cityStats legs emis att ws we durH ccf city).map GroupStat.avgTravel =
      (groupAverages legs emis att ws we durH ccf city).flatMap
        (fun g => List.replicate g.headcount g.avgTravel) := by
  induction att with
  | nil => rfl
  | cons g rest ih =>
    simp only [cityStats, groupAverages, List.flatMap_cons, List.map_cons,
      List.map_append, List.map_replicate] at ih ⊢
    rw [ih]

theorem sum_flatMap_replicate (gs : List GroupAverage) (f : GroupAverage → ℚ) :
    (gs.flatMap (fun g => List.replicate g.headcount (f g))).sum =
      (gs.map (fun g => (g.headcount : ℚ) * f g)).sum := by
  induction gs with
  | nil => rfl
  | cons g rest ih =>
    simp only [List.flatMap_cons, List.sum_append, List.map_cons, List.sum_cons,
      ih, List.sum_replicate, nsmul_eq_mul]

theorem cityScore_eq_specScore (legs : List FlightLeg) (emis : List EmissionRec)
    (att : List (String × Nat)) (ws we durH : Int) (ccf : Bool) (city : String)
    (wc wa : ℚ) :
    cityScore wc wa (cityStats legs emis att ws we durH ccf city) =
      specScorePhase1 wc wa (groupAverages legs emis att ws we durH ccf city) := by
  simp only [cityScore, specScorePhase1]
  rw [cityStats_map_co2, cityStats_map_travel,
    sum_flatMap_replicate (groupAverages legs emis att ws we durH ccf city)
      GroupAverage.avgCO2]
  push_cast
  ring

theorem phase1Ranked_pairwise (legs : List FlightLeg) (emis : List EmissionRec)
    (att : List (String × Nat)) (ws we durH : Int) (ccf : Bool) (wc wa : ℚ) :
    List.Pairwise (fun a b => a.2 ≤ b.2)
      (phase1Ranked legs emis att ws we durH ccf wc wa) := by
  haveI htot : IsTotal (String × ℝ) (fun a b => a.2 ≤ b.2) :=
    ⟨fun a b => le_total a.2 b.2⟩
  haveI htr : IsTrans (String × ℝ) (fun a b => a.2 ≤ b.2) :=
    ⟨fun a b c hab hbc => le_trans hab hbc⟩
  exact List.sorted_insertionSort (fun a b => a.2 ≤ b.2)
    (phase1Scored legs emis att ws we durH ccf wc wa)

/-- C3: for every city surviving Phase 1's pre- and post-filters, the score
attached to it equals `weightCO2 * totalCO2 + (1 - weightCO2) *
(weightAvgVsStd * mean(travelHours) + (1 - weightAvgVsStd) *
stdev(travelHours))`, where totalCO2 sums each group's mean round-trip CO2
once per headcount and the mean/sample standard deviation range over the
headcount-repeated mean travel hours (stdev 0 below two attendees); and the
ranking list is sorted so that lower scores rank earlier. -/
theorem c3_phase1_score (legs : List FlightLeg) (emis : List EmissionRec)
    (att : List (String × Nat)) (ws we durH : Int) (ccf : Bool) (wc wa : ℚ)
    (c : String) (stats : List GroupStat)
    (h : (c, stats) ∈ phase1Survivors legs emis att ws we durH ccf) :
    (c, cityScore wc wa stats) ∈ phase1Scored legs emis att ws we durH ccf wc wa ∧
    cityScore wc wa stats =
      specScorePhase1 wc wa (groupAverages legs emis att ws we durH ccf c) ∧
    List.Pairwise (fun a b => a.2 ≤ b.2)
      (phase1Ranked legs emis att ws we durH ccf wc wa) := by
  refine ⟨?_, ?_, phase1Ranked_pairwise legs emis att ws we durH ccf wc wa⟩
  · rw [phase1Scored]
    exact List.mem_map_of_mem (fun cs => (cs.1, cityScore wc wa cs.2)) h
  · rw [phase1Survivors, List.mem_map] at h
    obtain ⟨c1, hc1, heq⟩ := h
    rw [Prod.mk.injEq] at heq
    obtain ⟨h1, h2⟩ := heq
    subst h1
    rw [← h2]
    apply cityScore_eq_specScore

/-- Witness for C3: SIN survives Phase 1 on the fixture (direct flights only)
with one averaged sample per attendee. -/
theorem c3_phase1_score_witness :
    ("SIN", exStatsDirect) ∈ phase1Survivors exLegs exEmis exAtt 0 100000 1
        false ∧
    (("SIN", cityScore (1/2) (1/2) exStatsDirect) ∈
        phase1Scored exLegs exEmis exAtt 0 100000 1 false (1/2) (1/2) ∧
      cityScore (1/2) (1/2) exStatsDirect =
        specScorePhase1 (1/2) (1/2)
          (groupAverages exLegs exEmis exAtt 0 100000 1 false "SIN") ∧
      List.Pairwise (fun a b => a.2 ≤ b.2)
        (phase1Ranked exLegs exEmis exAtt 0 100000 1 false (1/2) (1/2))) :=
  ⟨by decide,
    c3_phase1_score exLegs exEmis exAtt 0 100000 1 false (1/2) (1/2) "SIN"
      exStatsDirect (by decide)⟩

theorem pickFold_invariant (xs : List (List TripCtx)) :
    ∀ acc b : List TripCtx,
      (xs.foldl pickStep (some acc, (spanHours acc : WithTop ℚ))).1 = some b →
      (b = acc ∧ ∀ c ∈ xs, spanHours acc ≤ spanHours c) ∨
      (∃ pre post, xs = pre ++ b :: post ∧ spanHours b < spanHours acc ∧
        (∀ c ∈ pre, spanHours b < spanHours c) ∧
        (∀ c ∈ post, spanHours b ≤ spanHours c)) := by
  induction xs with
  | nil =>
    intro acc b h
    simp only [List.foldl_nil] at h
    exact Or.inl ⟨(Option.some.inj h).symm, by simp⟩
  | cons x rest ih =>
    intro acc b h
    rw [List.foldl_cons] at h
    by_cases hx : (spanHours x : WithTop ℚ) < (spanHours acc : WithTop ℚ)
    · rw [show pickStep (some acc, (spanHours acc : WithTop ℚ)) x =
          (some x, (spanHours x : WithTop ℚ)) from by rw [pickStep, if_pos hx]]
        at h
      have hxq : spanHours x < spanHours acc := WithTop.coe_lt_coe.mp hx
      rcases ih x b h with ⟨rfl, hall⟩ | ⟨pre, post, hsplit, hlt, hpre, hpost⟩
      · exact Or.inr ⟨[], rest, rfl, hxq, by simp, hall⟩
      · refine Or.inr ⟨x :: pre, post, by rw [hsplit, List.cons_append], lt_trans hlt hxq, ?_, hpost⟩
        intro c hc
        rcases List.mem_cons.mp hc with rfl | hc
        · exact hlt
        · exact hpre c hc
    · rw [show pickStep (some acc, (spanHours acc : WithTop ℚ)) x =
          (some acc, (spanHours acc : WithTop ℚ)) from by rw [pickStep, if_neg hx]]
        at h
      have hxq : spanHours acc ≤ spanHours x :=
        WithTop.coe_le_coe.mp (not_lt.mp hx)
      rcases ih acc b h with ⟨rfl, hall⟩ | ⟨pre, post, hsplit, hlt, hpre, hpost⟩
      · refine Or.inl ⟨rfl, ?_⟩
        intro c hc
        rcases List.mem_cons.mp hc with rfl | hc
        · exact hxq
        · exact hall c hc
      · refine Or.inr ⟨x :: pre, post, by rw [hsplit, List.cons_append], hlt, ?_, hpost⟩
        intro c hc
        rcases List.mem_cons.mp hc with rfl | hc
        · exact lt_of_lt_of_le hlt hxq
        · exact hpre c hc

theorem pickBestCombo_spec (combos : List (List TripCtx)) (b : List TripCtx)
    (h : pickBestCombo combos = some b) :
    ∃ pre post, combos = pre ++ b :: post ∧
      (∀ c ∈ pre, spanHours b < spanHours c) ∧
      (∀ c ∈ post, spanHours b ≤ spanHours c) := by
  cases combos with
  | nil => exact absurd h (by simp [pickBestCombo])
  | cons x rest =>
    rw [pickBestCombo, List.foldl_cons] at h
    rw [show pickStep (none, ⊤) x = (some x, (spanHours x : WithTop ℚ)) from by
      rw [pickStep, if_pos (WithTop.coe_lt_top (spanHours x))]] at h
    rcases pickFold_invariant rest x b h with ⟨rfl, hall⟩ |
      ⟨pre, post, hsplit, hlt, hpre, hpost⟩
    · exact ⟨[], rest, rfl, by simp, hall⟩
    · refine ⟨x :: pre, post, by rw [hsplit, List.cons_append], ?_, hpost⟩
      intro c hc
      rcases List.mem_cons.mp hc with rfl | hc
      · exact hlt
      · exact hpre c hc

theorem collectOptions_eq (legs : List FlightLeg) (emis : List EmissionRec)
    (ws we durH : Int) (city : String) (limit : Nat) (ccf : Bool) :
    ∀ att lists,
      collectOptions legs emis att ws we durH city limit ccf = some lists →
      lists = att.filterMap (fun g =>
        (CITY_TO_CODE_MAP g.1).map (fun home =>
          ((sortByCO2 (getAllValidRoundTrips legs emis (some home) (some city)
            ws we durH ccf)).take limit).map
            (fun t => (⟨t, g.1, g.2⟩ : TripCtx)))) := by
  intro att
  induction att with
  | nil =>
    intro lists h
    rw [collectOptions] at h
    rw [← Option.some.inj h]
    rfl
  | cons g rest ih =>
    intro lists h
    rw [collectOptions] at h
    cases hm : CITY_TO_CODE_MAP g.1 with
    | none =>
      rw [hm] at h
      dsimp only at h
      rw [List.filterMap_cons, hm]
      exact ih lists h
    | some home =>
      rw [hm] at h
      dsimp only at h
      by_cases he : ((sortByCO2 (getAllValidRoundTrips legs emis (some home)
          (some city) ws we durH ccf)).take limit).isEmpty
      · rw [if_pos he] at h
        exact absurd h (by simp)
      · rw [if_neg he] at h
        obtain ⟨others, hothers, hlists⟩ := Option.map_eq_some'.mp h
        rw [← hlists, ih others hothers]
        simp [List.filterMap_cons, hm]

/-- C4: when `optimizeSpan` is true, the chosen itinerary is drawn from the
Cartesian product of each mapped attendee group's 5 lowest-total-CO2 round
trips; its event span (max last departure minus min first arrival over trips
with non-null markers, 0 when none) is minimal over every combination of that
product, and every combination encountered before it has strictly greater
span, so the first combination encountered wins ties. -/
theorem c4_span_optimization (legs : List FlightLeg) (emis : List EmissionRec)
    (att : List (String × Nat)) (ws we durH : Int) (city : String) (ccf : Bool)
    (it : List TripCtx)
    (h : chosenItinerary legs emis att ws we durH city true ccf = some it) :
    ∃ lists, collectOptions legs emis att ws we durH city 5 ccf = some lists ∧
      lists = att.filterMap (fun g =>
        (CITY_TO_CODE_MAP g.1).map (fun home =>
          ((sortByCO2 (getAllValidRoundTrips legs emis (some home) (some city)
            ws we durH ccf)).take 5).map
            (fun t => (⟨t, g.1, g.2⟩ : TripCtx)))) ∧
      it ∈ cartProd lists ∧
      (∀ c ∈ cartProd lists, spanHours it ≤ spanHours c) ∧
      ∃ pre post, cartProd lists = pre ++ it :: post ∧
        ∀ c ∈ pre, spanHours it < spanHours c := by
  have h2 : (collectOptions legs emis att ws we durH city 5 ccf).bind
      (fun lists => pickBestCombo (cartProd lists)) = some it := h
  clear h
  cases hco : collectOptions legs emis att ws we durH city 5 ccf with
  | none =>
    rw [hco] at h2
    exact absurd h2 (by simp)
  | some lists =>
    rw [hco] at h2
    simp only [Option.some_bind] at h2
    obtain ⟨pre, post, hsplit, hpre, hpost⟩ := pickBestCombo_spec _ _ h2
    refine ⟨lists, rfl, collectOptions_eq legs emis ws we durH city 5 ccf att
      lists hco, ?_, ?_, pre, post, hsplit, hpre⟩
    · rw [hsplit]
      exact List.mem_append_right _ (List.mem_cons_self _ _)
    · intro c hc
      rw [hsplit] at hc
      rcases List.mem_append.mp hc with hc | hc
      · exact le_of_lt (hpre c hc)
      · rcases List.mem_cons.mp hc with rfl | hc
        · exact le_refl _
        · exact hpost c hc

/-- Witness for C4: on the fixture, span optimisation picks the 1-stop
Mumbai trip (span 47.83h) over the direct one (span 49h). -/
theorem c4_span_optimization_witness :
    chosenItinerary exLegs exEmis exAtt 0 100000 1 "SIN" true true =
        some exChosen ∧
    ∃ lists, collectOptions exLegs exEmis exAtt 0 100000 1 "SIN" 5 true =
        some lists ∧
      lists = exAtt.filterMap (fun g =>
        (CITY_TO_CODE_MAP g.1).map (fun home =>
          ((sortByCO2 (getAllValidRoundTrips exLegs exEmis (some home)
            (some "SIN") 0 100000 1 true)).take 5).map
            (fun t => (⟨t, g.1, g.2⟩ : TripCtx)))) ∧
      exChosen ∈ cartProd lists ∧
      (∀ c ∈ cartProd lists, spanHours exChosen ≤ spanHours c) ∧
      ∃ pre post, cartProd lists = pre ++ exChosen :: post ∧
        ∀ c ∈ pre, spanHours exChosen < spanHours c :=
  ⟨by decide,
    c4_span_optimization exLegs exEmis exAtt 0 100000 1 "SIN" true exChosen
      (by decide)⟩

theorem roundHalfEven_bracket (q : ℚ) :
    roundHalfEven q = ⌊q⌋ ∨ roundHalfEven q = ⌊q⌋ + 1 := by
  simp only [roundHalfEven]
  split_ifs
  · exact Or.inl rfl
  · exact Or.inr rfl
  · exact Or.inl rfl
  · exact Or.inr rfl

theorem roundHalfEven_mono {a b : ℚ} (hab : a ≤ b) :
    roundHalfEven a ≤ roundHalfEven b := by
  have hfl : ⌊a⌋ ≤ ⌊b⌋ := Int.floor_le_floor hab
  rcases eq_or_lt_of_le hfl with heq | hlt
  · simp only [roundHalfEven, ← heq]
    have hfab : a - (⌊a⌋ : ℚ) ≤ b - (⌊a⌋ : ℚ) := by linarith
    split_ifs <;> first | omega | (exfalso; linarith)
  · rcases roundHalfEven_bracket a with h1 | h1 <;>
      rcases roundHalfEven_bracket b with h2 | h2 <;> omega

theorem pyRound2_mono {a b : ℚ} (hab : a ≤ b) : pyRound2 a ≤ pyRound2 b := by
  rw [pyRound2, pyRound2]
  have h1 : roundHalfEven (100 * a) ≤ roundHalfEven (100 * b) :=
    roundHalfEven_mono (by linarith)
  have h2 : ((roundHalfEven (100 * a) : ℤ) : ℚ) ≤
      ((roundHalfEven (100 * b) : ℤ) : ℚ) := by exact_mod_cast h1
  linarith

theorem mem_findFlights_connecting {legs : List FlightLeg}
    {emis : List EmissionRec} {home dest : Option String} {ws we : Int}
    {x : RouteLeg} (hx : x ∈ findFlights legs emis home dest ws we false) :
    x ∈ findFlights legs emis home dest ws we true := by
  rw [findFlights] at hx ⊢
  exact List.mem_append_left _ (by simpa using hx)

theorem trips_subset_connecting {legs : List FlightLeg}
    {emis : List EmissionRec} {home meeting : Option String} {ws we durH : Int}
    {t : Trip}
    (ht : t ∈ getAllValidRoundTrips legs emis home meeting ws we durH false) :
    t ∈ getAllValidRoundTrips legs emis home meeting ws we durH true := by
  by_cases hne : home = meeting
  · rw [getAllValidRoundTrips, if_pos (by simp [hne])] at ht ⊢
    exact ht
  · rw [mem_getAllValidRoundTrips_iff hne] at ht ⊢
    obtain ⟨o, ho, r, hr, hlt, rfl⟩ := ht
    exact ⟨o, mem_findFlights_connecting ho, r, mem_findFlights_connecting hr,
      hlt, rfl⟩

theorem cityStats_length (legs : List FlightLeg) (emis : List EmissionRec)
    (att : List (String × Nat)) (ws we durH : Int) (ccf : Bool) (city : String) :
    (cityStats legs emis att ws we durH ccf city).length =
      (att.map (fun g => g.2)).sum := by
  induction att with
  | nil => rfl
  | cons g rest ih =>
    simp only [cityStats, List.flatMap_cons, List.length_append,
      List.length_replicate, List.map_cons, List.sum_cons] at ih ⊢
    rw [ih]

theorem sortByCO2_head_min {trips : List Trip} {t : Trip}
    (h : (sortByCO2 trips).head? = some t) :
    t ∈ trips ∧ ∀ u ∈ trips, t.totalCO2 ≤ u.totalCO2 := by
  haveI htot : IsTotal Trip (fun a b => a.totalCO2 ≤ b.totalCO2) :=
    ⟨fun a b => le_total a.totalCO2 b.totalCO2⟩
  haveI htr : IsTrans Trip (fun a b => a.totalCO2 ≤ b.totalCO2) :=
    ⟨fun a b c hab hbc => le_trans hab hbc⟩
  have hperm : List.Perm (sortByCO2 trips) trips := by
    rw [sortByCO2]
    exact List.perm_insertionSort _ trips
  have hsort : List.Sorted (fun a b : Trip => a.totalCO2 ≤ b.totalCO2)
      (sortByCO2 trips) := by
    rw [sortByCO2]
    exact List.sorted_insertionSort _ trips
  cases hs : sortByCO2 trips with
  | nil =>
    rw [hs] at h
    exact Option.noConfusion h
  | cons x xs =>
    rw [hs] at h hperm hsort
    obtain rfl := Option.some.inj h
    obtain ⟨hhead, -⟩ := List.sorted_cons.mp hsort
    constructor
    · exact hperm.subset (List.mem_cons_self _ _)
    · intro u hu
      rcases List.mem_cons.mp (hperm.mem_iff.mpr hu) with rfl | hu2
      · exact le_refl _
      · exact hhead u hu2

theorem sum_unrolled_co2 (best : List TripCtx) :
    ((best.flatMap (fun tc => List.replicate tc.attendeeCount tc)).map
      (fun tc => tc.trip.totalCO2)).sum = sumCO2 best := by
  induction best with
  | nil => rfl
  | cons tc rest ih =>
    simp only [List.flatMap_cons, List.map_append, List.sum_append,
      List.map_replicate, List.sum_replicate, nsmul_eq_mul, sumCO2,
      List.map_cons, List.sum_cons] at ih ⊢
    rw [ih]

theorem getAllValidRoundTrips_none_left (legs : List FlightLeg)
    (emis : List EmissionRec) (city : String) (ws we durH : Int) (ic : Bool) :
    getAllValidRoundTrips legs emis none (some city) ws we durH ic = [] := by
  have hnil : ∀ p : FlightLeg → Bool,
      legs.filter (fun l => ((none : Option String) == some l.depcity) && p l) = [] := by
    intro p
    rw [List.filter_eq_nil_iff]
    intro l hl
    simp
  have hdf : directFlights legs emis none (some city) ws we = [] := by
    rw [directFlights]
    rw [show legs.filter (fun l =>
        ((none : Option String) == some l.depcity && some city == some l.arrcity &&
          l.stops == 0 && decide (ws ≤ l.depTime) && decide (l.arrTime ≤ we))) = []
      from by
        rw [List.filter_eq_nil_iff]
        intro l hl
        simp]
    rfl
  have hos : oneStopFlights legs emis none (some city) ws we = [] := by
    rw [oneStopFlights, leg1Rows]
    rw [show legs.filter (fun l =>
        ((none : Option String) == some l.depcity && l.stops == 0 &&
          decide (ws ≤ l.depTime))) = []
      from by
        rw [List.filter_eq_nil_iff]
        intro l hl
        simp]
    rfl
  rw [getAllValidRoundTrips, if_neg (by simp)]
  rw [findFlights]
  cases ic
  · simp [hdf]
  · simp [hdf, hos]

/-- C9: if some attendee group's home city name has no entry in
`CITY_TO_CODE_MAP`, every candidate city is rejected by Phase 1's post-filter
(the unmapped group's round-trip query matches no legs), and
`find_best_meeting` returns the single "No valid meeting locations found."
record rather than an invalid-argument report. -/
theorem c9_unmapped_attendee (rawLegs : List FlightLeg)
    (emis : List EmissionRec) (att : List (String × Nat)) (ws we durH : Int)
    (wc wa : ℚ) (ccf : Bool)
    (hw1 : 0 ≤ wc ∧ wc ≤ 1) (hw2 : 0 ≤ wa ∧ wa ≤ 1)
    (hun : ∃ g ∈ att, CITY_TO_CODE_MAP g.1 = none) :
    findBestMeeting rawLegs emis att ws we durH wc wa ccf =
      Except.ok [RunOutput.errorRec "No valid meeting locations found."] := by
  obtain ⟨g, hg, hnone⟩ := hun
  have hsurv : phase1Survivors (loadSchedules rawLegs) emis att ws we durH ccf
      = [] := by
    rw [phase1Survivors]
    rw [show (potentialMeetingCities (loadSchedules rawLegs) att).filter
        (cityPasses (loadSchedules rawLegs) emis att ws we durH ccf) = []
      from by
        rw [List.filter_eq_nil_iff]
        intro city hcity hpass
        rw [cityPasses, Bool.and_eq_true, Bool.and_eq_true] at hpass
        obtain ⟨⟨hpre, hall⟩, hstat⟩ := hpass
        rw [List.all_eq_true] at hall
        have hgg := hall g hg
        rw [groupTrips, hnone, getAllValidRoundTrips_none_left] at hgg
        simp at hgg]
    rfl
  rw [findBestMeeting, if_neg (not_not_intro hw1), if_neg (not_not_intro hw2)]
  simp only [phase1Scored, hsurv, List.map_nil, List.isEmpty_nil, if_true]

theorem cityMetrics_noopt_co2 {legs : List FlightLeg} {emis : List EmissionRec}
    {att : List (String × Nat)} {ws we durH : Int} {city : String} {ccf : Bool}
    {a : ℚ}
    (h : (cityMetrics legs emis att ws we durH city false ccf).map
      CityMetrics.totalCO2Tonnes = some a) :
    ∃ lists best,
      collectOptions legs emis att ws we durH city 1 ccf = some lists ∧
      lists.mapM List.head? = some best ∧ best ≠ [] ∧
      a = pyRound2 (sumCO2 best) := by
  obtain ⟨m, hm, hproj⟩ := Option.map_eq_some'.mp h
  rw [cityMetrics] at hm
  cases hch : chosenItinerary legs emis att ws we durH city false ccf with
  | none =>
    rw [hch] at hm
    exact absurd hm (by simp)
  | some best =>
    rw [hch] at hm
    simp only [Option.some_bind] at hm
    by_cases hbe : best.isEmpty
    · rw [if_pos hbe] at hm
      exact absurd hm (by simp)
    · rw [if_neg hbe] at hm
      obtain rfl := Option.some.inj hm
      have hch2 : (collectOptions legs emis att ws we durH city 1 ccf).bind
          (fun lists => lists.mapM List.head?) = some best := hch
      cases hco : collectOptions legs emis att ws we durH city 1 ccf with
      | none =>
        rw [hco] at hch2
        exact absurd hch2 (by simp)
      | some lists =>
        rw [hco] at hch2
        simp only [Option.some_bind] at hch2
        refine ⟨lists, best, rfl, hch2, by simpa using hbe, ?_⟩
        rw [← hproj]
        show pyRound2 (((best.flatMap
            (fun tc => List.replicate tc.attendeeCount tc)).map
          (fun tc => tc.trip.totalCO2)).sum) = pyRound2 (sumCO2 best)
        rw [sum_unrolled_co2]

theorem collectOptions_one_co2_le (legs : List FlightLeg)
    (emis : List EmissionRec) (ws we durH : Int) (city : String) :
    ∀ (att : List (String × Nat)) lsF lsT bF bT,
      collectOptions legs emis att ws we durH city 1 false = some lsF →
      collectOptions legs emis att ws we durH city 1 true = some lsT →
      lsF.mapM List.head? = some bF →
      lsT.mapM List.head? = some bT →
      sumCO2 bT ≤ sumCO2 bF := by
  intro att
  induction att with
  | nil =>
    intro lsF lsT bF bT hF hT hbF hbT
    rw [collectOptions] at hF hT
    obtain rfl := Option.some.inj hF
    obtain rfl := Option.some.inj hT
    rw [show (List.mapM List.head? ([] : List (List TripCtx))) = some [] from rfl]
      at hbF hbT
    obtain rfl := Option.some.inj hbF
    obtain rfl := Option.some.inj hbT
    exact le_refl _
  | cons g rest ih =>
    intro lsF lsT bF bT hF hT hbF hbT
    rw [collectOptions] at hF hT
    cases hm : CITY_TO_CODE_MAP g.1 with
    | none =>
      rw [hm] at hF hT
      dsimp only at hF hT
      exact ih lsF lsT bF bT hF hT hbF hbT
    | some home =>
      rw [hm] at hF hT
      dsimp only at hF hT
      by_cases heF : ((sortByCO2 (getAllValidRoundTrips legs emis (some home)
          (some city) ws we durH false)).take 1).isEmpty
      · rw [if_pos heF] at hF
        exact absurd hF (by simp)
      by_cases heT : ((sortByCO2 (getAllValidRoundTrips legs emis (some home)
          (some city) ws we durH true)).take 1).isEmpty
      · rw [if_pos heT] at hT
        exact absurd hT (by simp)
      rw [if_neg heF] at hF
      rw [if_neg heT] at hT
      obtain ⟨othersF, hoF, hlsF⟩ := Option.map_eq_some'.mp hF
      obtain ⟨othersT, hoT, hlsT⟩ := Option.map_eq_some'.mp hT
      cases hsf : sortByCO2 (getAllValidRoundTrips legs emis (some home)
          (some city) ws we durH false) with
      | nil =>
        rw [hsf] at heF
        exact absurd rfl heF
      | cons tF srestF =>
        cases hst : sortByCO2 (getAllValidRoundTrips legs emis (some home)
            (some city) ws we durH true) with
        | nil =>
          rw [hst] at heT
          exact absurd rfl heT
        | cons tT srestT =>
          rw [hsf] at hlsF
          rw [hst] at hlsT
          rw [← hlsF] at hbF
          rw [← hlsT] at hbT
          cases hmF : othersF.mapM List.head? with
          | none =>
            rw [List.mapM_cons, hmF] at hbF
            exact absurd hbF (by simp)
          | some brestF =>
            cases hmT : othersT.mapM List.head? with
            | none =>
              rw [List.mapM_cons, hmT] at hbT
              exact absurd hbT (by simp)
            | some brestT =>
              rw [List.mapM_cons, hmF] at hbF
              rw [List.mapM_cons, hmT] at hbT
              simp only [List.take_cons, List.take_zero, List.map_cons,
                List.map_nil, List.head?_cons, Option.some_bind,
                Option.pure_def] at hbF hbT
              obtain rfl := Option.some.inj hbF
              obtain rfl := Option.some.inj hbT
              have hrec : sumCO2 brestT ≤ sumCO2 brestF :=
                ih othersF othersT brestF brestT hoF hoT hmF hmT
              have hminT := sortByCO2_head_min (t := tT)
                (by rw [hst]; rfl)
              have hminF := sortByCO2_head_min (t := tF)
                (by rw [hsf]; rfl)
              have hFmemT : tF ∈ getAllValidRoundTrips legs emis (some home)
                  (some city) ws we durH true :=
                trips_subset_connecting hminF.1
              have hco2 : tT.totalCO2 ≤ tF.totalCO2 := hminT.2 tF hFmemT
              simp only [sumCO2, List.map_cons, List.sum_cons]
              have hcnt : (0 : ℚ) ≤ (g.2 : ℚ) := by positivity
              have h1 : (g.2 : ℚ) * tT.totalCO2 ≤ (g.2 : ℚ) * tF.totalCO2 :=
                mul_le_mul_of_nonneg_left hco2 hcnt
              simp only [sumCO2] at hrec
              linarith

/-- C7 (amended): disabling connecting flights never increases the number of
candidate cities that survive Phase 1; and for itineraries built without span
optimisation (the path used for ranks 2 and 3), the reported
`total_co2_tonnes` under `considerConnectingFlights = false` is never lower
than under `true`.  (With span optimisation — the rank-1 path — the CO2
guarantee fails, see the counterexample.) -/
theorem c7_toggle_monotone (legs : List FlightLeg) (emis : List EmissionRec)
    (att : List (String × Nat)) (ws we durH : Int) :
    ((phase1Survivors legs emis att ws we durH false).length ≤
      (phase1Survivors legs emis att ws we durH true).length) ∧
    (∀ city a b,
      (cityMetrics legs emis att ws we durH city false false).map
          CityMetrics.totalCO2Tonnes = some a →
      (cityMetrics legs emis att ws we durH city false true).map
          CityMetrics.totalCO2Tonnes = some b →
      b ≤ a) := by
  constructor
  · rw [phase1Survivors, phase1Survivors, List.length_map, List.length_map]
    have himp : ∀ c ∈ potentialMeetingCities legs att,
        cityPasses legs emis att ws we durH false c = true →
        cityPasses legs emis att ws we durH true c = true := by
      intro c hc hp
      rw [cityPasses, Bool.and_eq_true, Bool.and_eq_true] at hp ⊢
      obtain ⟨⟨hpre, hall⟩, hstat⟩ := hp
      refine ⟨⟨hpre, ?_⟩, ?_⟩
      · rw [List.all_eq_true] at hall ⊢
        intro g hg
        have h1 := hall g hg
        rw [Bool.not_eq_true'] at h1 ⊢
        cases hgt : groupTrips legs emis ws we durH false c g.1 with
        | nil =>
          rw [hgt] at h1
          simp at h1
        | cons t ts =>
          have htmem : t ∈ groupTrips legs emis ws we durH false c g.1 := by
            rw [hgt]
            exact List.mem_cons_self _ _
          have ht : t ∈ groupTrips legs emis ws we durH true c g.1 :=
            trips_subset_connecting htmem
          cases hgt2 : groupTrips legs emis ws we durH true c g.1 with
          | nil =>
            rw [hgt2] at ht
            exact absurd ht (List.not_mem_nil t)
          | cons u us => rfl
      · rw [Bool.not_eq_true'] at hstat ⊢
        cases hxT : cityStats legs emis att ws we durH true c with
        | cons u us => rfl
        | nil =>
          exfalso
          have h0 : (att.map (fun g => g.2)).sum = 0 := by
            rw [← cityStats_length legs emis att ws we durH true c, hxT]
            rfl
          cases hxF : cityStats legs emis att ws we durH false c with
          | nil =>
            rw [hxF] at hstat
            simp at hstat
          | cons v vs =>
            have h1 : (cityStats legs emis att ws we durH false c).length = 0 := by
              rw [cityStats_length, h0]
            rw [hxF] at h1
            simp at h1
    calc ((potentialMeetingCities legs att).filter
            (cityPasses legs emis att ws we durH false)).length
        = (potentialMeetingCities legs att).countP
            (cityPasses legs emis att ws we durH false) := by
          simp [List.countP_eq_length_filter]
      _ ≤ (potentialMeetingCities legs att).countP
            (cityPasses legs emis att ws we durH true) :=
          List.countP_mono_left himp
      _ = ((potentialMeetingCities legs att).filter
            (cityPasses legs emis att ws we durH true)).length := by
          simp [List.countP_eq_length_filter]
  · intro city a b ha hb
    obtain ⟨lsF, bF, hcoF, hbF, hneF, rfl⟩ := cityMetrics_noopt_co2 ha
    obtain ⟨lsT, bT, hcoT, hbT, hneT, rfl⟩ := cityMetrics_noopt_co2 hb
    exact pyRound2_mono (collectOptions_one_co2_le legs emis ws we durH city
      att lsF lsT bF bT hcoF hcoT hbF hbT)

/-- Witness for C7 (amended): on the fixture, the non-span-optimised SIN
itinerary reports 4 tonnes under both settings. -/
theorem c7_toggle_monotone_witness :
    ((cityMetrics exLegs exEmis exAtt 0 100000 1 "SIN" false false).map
        CityMetrics.totalCO2Tonnes = some 4) ∧
    ((cityMetrics exLegs exEmis exAtt 0 100000 1 "SIN" false true).map
        CityMetrics.totalCO2Tonnes = some 4) ∧
    (4 : ℚ) ≤ 4 :=
  ⟨by decide, by decide,
    (c7_toggle_monotone exLegs exEmis exAtt 0 100000 1).2 "SIN" 4 4 (by decide)
      (by decide)⟩

theorem findBestMeeting_single (rawLegs : List FlightLeg)
    (emis : List EmissionRec) (att : List (String × Nat)) (ws we durH : Int)
    (wc wa : ℚ) (ccf : Bool) (c : String) (stats : List GroupStat)
    (hw1 : 0 ≤ wc ∧ wc ≤ 1) (hw2 : 0 ≤ wa ∧ wa ≤ 1)
    (hs : phase1Survivors (loadSchedules rawLegs) emis att ws we durH ccf =
      [(c, stats)]) :
    findBestMeeting rawLegs emis att ws we durH wc wa ccf =
      Except.ok
        (((getFinalJsonForCity (loadSchedules rawLegs) emis att ws we durH c 1
          (cityScore wc wa stats) true ccf).map RunOutput.report).toList) := by
  rw [findBestMeeting, if_neg (not_not_intro hw1), if_neg (not_not_intro hw2)]
  have hsc : phase1Scored (loadSchedules rawLegs) emis att ws we durH ccf wc wa
      = [(c, cityScore wc wa stats)] := by
    rw [phase1Scored, hs]
    rfl
  simp only [phase1Ranked, hsc]
  rfl

theorem rank1CO2_of_metrics {legs : List FlightLeg} {emis : List EmissionRec}
    {att : List (String × Nat)} {ws we durH : Int} {c : String} {sc : ℝ}
    {ccf : Bool} {m : CityMetrics}
    (hm : cityMetrics legs emis att ws we durH c true ccf = some m) :
    rank1CO2 (Except.ok (((getFinalJsonForCity legs emis att ws we durH c 1 sc
        true ccf).map RunOutput.report).toList)) =
      some m.totalCO2Tonnes := by
  rw [getFinalJsonForCity, hm]
  rfl

/-- C7 counterexample: on the fixture scenario the only surviving city SIN is
rank 1 under both settings, so span optimisation runs; with connecting
flights enabled it picks Mumbai's costlier 1-stop trip for its smaller span,
reporting 7 tonnes, while with connecting flights disabled it reports 4 —
the reported rank-1 `total_co2_tonnes` under `false` IS lower than under
`true`, refuting the claim's second half. -/
theorem c7_toggle_counterexample :
    rank1CO2 (findBestMeeting exLegs exEmis exAtt 0 100000 1 (1/2) (1/2) false)
        = some 4 ∧
    rank1CO2 (findBestMeeting exLegs exEmis exAtt 0 100000 1 (1/2) (1/2) true)
        = some 7 ∧
    (4 : ℚ) < 7 := by
  have hload : loadSchedules exLegs = exLegs := by decide
  have hsF : phase1Survivors (loadSchedules exLegs) exEmis exAtt 0 100000 1
      false = [("SIN", exStatsDirect)] := by
    rw [hload]
    decide
  have hsT : phase1Survivors (loadSchedules exLegs) exEmis exAtt 0 100000 1
      true = [("SIN", exStatsConn)] := by
    rw [hload]
    decide
  have hmF : (cityMetrics (loadSchedules exLegs) exEmis exAtt 0 100000 1 "SIN"
      true false).map CityMetrics.totalCO2Tonnes = some 4 := by
    rw [hload]
    decide
  have hmT : (cityMetrics (loadSchedules exLegs) exEmis exAtt 0 100000 1 "SIN"
      true true).map CityMetrics.totalCO2Tonnes = some 7 := by
    rw [hload]
    decide
  refine ⟨?_, ?_, by norm_num⟩
  · rw [findBestMeeting_single exLegs exEmis exAtt 0 100000 1 (1/2) (1/2) false
      "SIN" exStatsDirect (by norm_num) (by norm_num) hsF]
    obtain ⟨m, hm, hproj⟩ := Option.map_eq_some'.mp hmF
    rw [rank1CO2_of_metrics hm, hproj]
  · rw [findBestMeeting_single exLegs exEmis exAtt 0 100000 1 (1/2) (1/2) true
      "SIN" exStatsConn (by norm_num) (by norm_num) hsT]
    obtain ⟨m, hm, hproj⟩ := Option.map_eq_some'.mp hmT
    rw [rank1CO2_of_metrics hm, hproj]

/-- Witness for C9: an attendee from the unmapped city "Atlantis" forces the
error record on the fixture data. -/
theorem c9_unmapped_attendee_witness :
    (0 ≤ (1:ℚ)/2 ∧ (1:ℚ)/2 ≤ 1) ∧
    (∃ g ∈ [("Atlantis", 2)], CITY_TO_CODE_MAP g.1 = none) ∧
    findBestMeeting exLegs exEmis [("Atlantis", 2)] 0 100000 1 (1/2) (1/2) true =
      Except.ok [RunOutput.errorRec "No valid meeting locations found."] :=
  ⟨by norm_num, ⟨("Atlantis", 2), by decide⟩,
    c9_unmapped_attendee exLegs exEmis [("Atlantis", 2)] 0 100000 1 (1/2) (1/2)
      true (by norm_num) (by norm_num) ⟨("Atlantis", 2), by decide⟩⟩

/-- Witness for C10: the fixture's 1-stop Mumbai round trip carries exactly
segment 1's `EK 5` detail and segment 2's SIN arrival airport in its single
outbound ticket entry. -/
theorem c10_onestop_ticket_fields_witness :
    exTripOneStop ∈ getAllValidRoundTrips exLegs exEmis (some "BOM")
        (some "SIN") 0 100000 1 true ∧
    exTripOneStop.outboundRoute = "1-Stop" ∧
    ∃ l1 e1 l2 e2,
      oneStopSegments exLegs exEmis (some "BOM") (some "SIN") 0 100000
          l1 e1 l2 e2 ∧
      (ticketsOfTrip ⟨exTripOneStop, "Mumbai", 1⟩).filter
          (fun tk => tk.direction == "out") =
        [⟨some l1.depapt, some l2.arrapt, some l1.carrier, some l1.fltno,
          some l1.depTime, 1, "out", "1-Stop"⟩] :=
  ⟨by decide, by decide,
    (c10_onestop_ticket_fields exLegs exEmis (some "BOM") (some "SIN") 0 100000
      1 true exTripOneStop "Mumbai" 1 (by decide) (by decide)).1 (by decide)⟩

end MeetingOpt
